import Mathlib

/-!
Shallow embedding of the DemiurgAssistent bot's subscription/membership core:
the PostgreSQL ledger (`database.py`), the Robokassa signature scheme
(`robokassa.py`), the payment-confirmation webhook handler
(`payment_handler.py`), the payment-granting flow (`handlers.py`) and the
periodic/startup sweeps (`scheduler.py`).

Modelling conventions:
* Timestamps are `Int` (an abstract linear time axis); `datetime.now()`
  becomes an explicit `now : Int` parameter, and `timedelta(days=d)` becomes
  adding the configured quantity `d` on that axis.
* Monetary amounts: the `payments.amount` column is an SQL `INTEGER`, so it
  is `Int`; the gateway's `OutSum` arrives as a string which Python parses
  with `float(...)` — the request carries both the raw string (used verbatim
  in the signature) and its parsed numeric value as `ℚ`.
* The MD5 primitive (`hashlib.md5(...).hexdigest()`) is an external library
  function; it is a parameter `md5 : String → String` of the environment.
* External Telegram calls (`ban_chat_member`, `send_message`, ...) and the
  store statements that the code wraps in `try/except` are modelled by an
  environment of failure oracles telling which call raises; performed calls
  are recorded in an `Effect` trace, in program order.
* Each SQL statement acts atomically on one table of the `DB` value, exactly
  as the connection-per-statement code does (no cross-call transaction).
-/

/-- Row of the `subscriptions` table (`database.py`, CREATE TABLE subscriptions):
`UNIQUE(telegram_id, channel_name)`, `is_active`, `payment_method`,
`start_date`, `end_date`. -/
structure Subscription where
  telegramId : Nat
  channelName : String
  isActive : Bool
  paymentMethod : String
  startDate : Int
  endDate : Int
deriving DecidableEq

/-- Row of the `payments` table: `payment_id` is UNIQUE, `amount` is an SQL
`INTEGER`, `status` is `'pending'` or `'success'`. -/
structure Payment where
  telegramId : Nat
  channelName : String
  amount : Int
  paymentId : String
  status : String
deriving DecidableEq

/-- Row of the `reminders` table: `UNIQUE(telegram_id, channel_name)`,
`reminder_sent`, `reminder_date`. -/
structure Reminder where
  telegramId : Nat
  channelName : String
  reminderSent : Bool
  reminderDate : Int
deriving DecidableEq

/-- Row of the `channel_memberships` table: PRIMARY KEY
`(telegram_id, channel_name)`, `is_banned`, `is_whitelisted`,
`banned_at` (nullable), `last_verified`. -/
structure ChannelMembership where
  telegramId : Nat
  channelName : String
  isBanned : Bool
  isWhitelisted : Bool
  bannedAt : Option Int
  lastVerified : Int
deriving DecidableEq

/-- The six logical tables of the store (`users` is reduced to its key set;
its display attributes and gift flag play no role in the claims below).
`whitelist` rows are `(telegram_id, channel_name)` pairs. -/
structure DB where
  users : List Nat
  subscriptions : List Subscription
  payments : List Payment
  reminders : List Reminder
  whitelist : List (Nat × String)
  memberships : List ChannelMembership
deriving DecidableEq

/-- Values imported from `config.py` (not under `src/`): channel identifiers,
prices, period lengths (in days on the abstract time axis) and the
channel-specific Robokassa `Password #2` secrets. -/
structure Config where
  CHANNEL_1_ID : String
  CHANNEL_2_ID : String
  CHANNEL_1_PRICE : Int
  CHANNEL_2_PRICE : Int
  FREE_TRIAL_DAYS : Int
  PAID_SUBSCRIPTION_DAYS : Int
  ROBOKASSA_CHANNEL_1_PASSWORD_2 : String
  ROBOKASSA_CHANNEL_2_PASSWORD_2 : String

/-- External observable calls, recorded in program order. `addToChannel`
abstracts `add_user_to_channel` (`handlers.py` 26-52), whose body catches
every exception and therefore never raises. `banMember` is
`bot.ban_chat_member(chat_id, user_id)`; the send effects carry the channel
name that selects the message/keyboard payload. -/
inductive Effect where
  | grant (uid : Nat) (ch : String) (method : String)
  | addToChannel (uid : Nat) (chId : String)
  | banMember (uid : Nat) (chId : String)
  | sendEnded (uid : Nat) (ch : String)
  | sendReminder (uid : Nat) (ch : String)
  | notifySuccess (uid : Nat)
  | notifyBonus (uid : Nat)
deriving DecidableEq

/-- Failure oracles for the calls the Python code wraps in `try/except` (or
whose exception the webhook handler catches), plus the MD5 primitive.
`failGrant uid ch`: `db.create_subscription` raises; `failNotify uid`:
`bot.send_message` in `process_payment_success` raises; `failBan chId uid`:
`bot.ban_chat_member` raises; `failSendEnded`/`failSendReminder`: the
corresponding `bot.send_message` raises; `failUpdateStatus`:
`db.update_payment_status` raises. -/
structure Env where
  md5 : String → String
  failGrant : Nat → String → Bool
  failNotify : Nat → Bool
  failBan : String → Nat → Bool
  failSendEnded : Nat → Bool
  failSendReminder : Nat → Bool
  failUpdateStatus : Bool

/-! ## Ledger operations (`database.py`) -/

/-- Key predicate for the `(telegram_id, channel_name)` unique key. -/
def subKey (uid : Nat) (ch : String) (s : Subscription) : Bool :=
  s.telegramId == uid && s.channelName == ch

def memKey (uid : Nat) (ch : String) (m : ChannelMembership) : Bool :=
  m.telegramId == uid && m.channelName == ch

def remKey (uid : Nat) (ch : String) (r : Reminder) : Bool :=
  r.telegramId == uid && r.channelName == ch

/-- `database.py` `get_payment`: `SELECT * FROM payments WHERE payment_id = $1`
(first row; `payment_id` is UNIQUE). -/
def get_payment (db : DB) (pid : String) : Option Payment :=
  db.payments.find? (fun p => p.paymentId == pid)

/-- `database.py` `update_payment_status`:
`UPDATE payments SET status = $1 WHERE payment_id = $2`. -/
def update_payment_status (db : DB) (pid : String) (status : String) : DB :=
  { db with payments :=
      db.payments.map (fun p => if p.paymentId == pid then { p with status := status } else p) }

/-- `database.py` `create_subscription`: SELECT the `(telegram_id,
channel_name)` row; UPDATE it if present, INSERT otherwise (upsert). -/
def create_subscription (db : DB) (uid : Nat) (ch : String) (method : String)
    (startDate endDate : Int) (isActive : Bool) : DB :=
  if db.subscriptions.any (subKey uid ch) then
    { db with subscriptions := db.subscriptions.map (fun s =>
        if subKey uid ch s then
          { s with isActive := isActive, paymentMethod := method,
                   startDate := startDate, endDate := endDate }
        else s) }
  else
    { db with subscriptions := db.subscriptions ++
        [⟨uid, ch, isActive, method, startDate, endDate⟩] }

/-- `database.py` `deactivate_subscription`:
`UPDATE subscriptions SET is_active = FALSE WHERE telegram_id AND channel_name`. -/
def deactivate_subscription (db : DB) (uid : Nat) (ch : String) : DB :=
  { db with subscriptions := db.subscriptions.map (fun s =>
      if subKey uid ch s then { s with isActive := false } else s) }

/-- `database.py` `has_ever_had_subscription`: `SELECT COUNT(*) ... > 0`
over all rows of the pair, active or not. -/
def has_ever_had_subscription (db : DB) (uid : Nat) (ch : String) : Bool :=
  db.subscriptions.any (subKey uid ch)

/-- Descending end-date order used by `ORDER BY end_date DESC`. -/
def endGE (a b : Subscription) : Prop := b.endDate ≤ a.endDate

instance : DecidableRel endGE := fun a b => inferInstanceAs (Decidable (b.endDate ≤ a.endDate))

/-- `database.py` `get_active_subscription`: `SELECT * ... WHERE telegram_id
AND channel_name AND is_active = TRUE ORDER BY end_date DESC LIMIT 1`. -/
def get_active_subscription (db : DB) (uid : Nat) (ch : String) : Option Subscription :=
  (List.insertionSort endGE
    (db.subscriptions.filter (fun s => subKey uid ch s && s.isActive))).head?

/-- Ascending end-date order used by `ORDER BY end_date ASC`. -/
def endLE (a b : Subscription) : Prop := a.endDate ≤ b.endDate

instance : DecidableRel endLE := fun a b => inferInstanceAs (Decidable (a.endDate ≤ b.endDate))

instance : IsTotal Subscription endLE := ⟨fun a b => Int.le_total a.endDate b.endDate⟩

instance : IsTrans Subscription endLE := ⟨fun _ _ _ h h' => Int.le_trans h h'⟩

/-- `database.py` `get_expired_subscriptions` (lines 413-461): the result rows
come from `SELECT * FROM subscriptions WHERE is_active = TRUE AND
end_date < $1 ORDER BY end_date ASC` with `$1 = datetime.now()`; the
surrounding queries and prints are read-only debug output. Note the strict
`<`. -/
def get_expired_subscriptions (db : DB) (now : Int) : List Subscription :=
  List.insertionSort endLE
    (db.subscriptions.filter (fun s => s.isActive && decide (s.endDate < now)))

/-- `database.py` `get_pending_reminders`:
`SELECT * FROM reminders WHERE reminder_sent = FALSE AND reminder_date <= $1`
with `$1 = datetime.now()` (no ORDER BY). -/
def get_pending_reminders (db : DB) (now : Int) : List Reminder :=
  db.reminders.filter (fun r => !r.reminderSent && decide (r.reminderDate ≤ now))

/-- `database.py` `mark_reminder_sent`:
`UPDATE reminders SET reminder_sent = TRUE WHERE telegram_id AND channel_name`. -/
def mark_reminder_sent (db : DB) (uid : Nat) (ch : String) : DB :=
  { db with reminders := db.reminders.map (fun r =>
      if remKey uid ch r then { r with reminderSent := true } else r) }

/-- `database.py` `is_whitelisted`: `SELECT COUNT(*) FROM whitelist WHERE
telegram_id AND channel_name` compared with 0. -/
def is_whitelisted (db : DB) (uid : Nat) (ch : String) : Bool :=
  db.whitelist.any (fun w => w.1 == uid && w.2 == ch)

/-- `database.py` `is_user_banned`: `SELECT is_banned FROM channel_memberships
WHERE telegram_id AND channel_name`, `FALSE` when no row. -/
def is_user_banned (db : DB) (uid : Nat) (ch : String) : Bool :=
  match db.memberships.find? (memKey uid ch) with
  | some m => m.isBanned
  | none => false

/-- `database.py` `set_user_banned` (lines 563-584): reads the whitelist, then
upserts the membership row with `is_banned = $3`, `is_whitelisted` = current
whitelist presence, `banned_at = now` when banning and `NULL` otherwise
(both on the INSERT values and on the `ON CONFLICT` UPDATE's CASE), and
`last_verified = now`. -/
def set_user_banned (db : DB) (now : Int) (uid : Nat) (ch : String) (isBanned : Bool) : DB :=
  let wl := is_whitelisted db uid ch
  if db.memberships.any (memKey uid ch) then
    { db with memberships := db.memberships.map (fun m =>
        if memKey uid ch m then
          { m with isBanned := isBanned, isWhitelisted := wl,
                   bannedAt := if isBanned then some now else none,
                   lastVerified := now }
        else m) }
  else
    { db with memberships := db.memberships ++
        [⟨uid, ch, isBanned, wl, if isBanned then some now else none, now⟩] }

/-- `database.py` `add_whitelist_user` (lines 463-496): ensure the user row
exists, INSERT the whitelist pair (`ON CONFLICT DO NOTHING`), then upsert the
membership row with `is_whitelisted = TRUE`, `is_banned = FALSE`,
`banned_at = NULL`, `last_verified = now`. -/
def add_whitelist_user (db : DB) (now : Int) (uid : Nat) (ch : String) : DB :=
  let db1 := if db.users.any (· == uid) then db else { db with users := db.users ++ [uid] }
  let db2 := if db1.whitelist.any (fun w => w.1 == uid && w.2 == ch) then db1
             else { db1 with whitelist := db1.whitelist ++ [(uid, ch)] }
  if db2.memberships.any (memKey uid ch) then
    { db2 with memberships := db2.memberships.map (fun m =>
        if memKey uid ch m then
          { m with isBanned := false, isWhitelisted := true,
                   bannedAt := none, lastVerified := now }
        else m) }
  else
    { db2 with memberships := db2.memberships ++ [⟨uid, ch, false, true, none, now⟩] }

/-- `database.py` `remove_whitelist_user` (lines 498-517): DELETE the
whitelist pair, then `UPDATE channel_memberships SET is_whitelisted = FALSE,
last_verified = now` for the pair (plain UPDATE, no insert; `is_banned` and
`banned_at` untouched). -/
def remove_whitelist_user (db : DB) (now : Int) (uid : Nat) (ch : String) : DB :=
  let db1 := { db with whitelist := db.whitelist.filter (fun w => !(w.1 == uid && w.2 == ch)) }
  { db1 with memberships := db1.memberships.map (fun m =>
      if memKey uid ch m then { m with isWhitelisted := false, lastVerified := now } else m) }

/-! ## Robokassa signature scheme (`robokassa.py`) -/

/-- Python's `sorted(dict.items())`: lexicographic order on `(key, value)`
pairs; dictionary keys are unique, so this sorts by key. -/
def pairLE (a b : String × String) : Prop :=
  a.1 < b.1 ∨ (a.1 = b.1 ∧ a.2 ≤ b.2)

instance : DecidableRel pairLE := fun a b =>
  inferInstanceAs (Decidable (a.1 < b.1 ∨ (a.1 = b.1 ∧ a.2 ≤ b.2)))

/-- The canonical string of `verify_payment_signature` (`robokassa.py`
124-154): `OutSum:InvId:Password2`, and when `shp_params` is non-empty,
`:Key1=Val1:Key2=Val2...` appended with the pairs in sorted order. -/
def signature_base (amount invoiceId password : String)
    (shpParams : List (String × String)) : String :=
  let base := amount ++ ":" ++ invoiceId ++ ":" ++ password
  if shpParams.isEmpty then base
  else base ++ ":" ++ String.intercalate ":"
    ((List.insertionSort pairLE shpParams).map (fun kv => kv.1 ++ "=" ++ kv.2))

/-- Python's `str.lower()` (ASCII case folding; the compared strings are hex
digests and latin signature text). -/
def strLower (s : String) : String := ⟨s.data.map Char.toLower⟩

/-- `robokassa.py` `verify_payment_signature`: MD5 hex digest of the canonical
string, compared case-insensitively with the received signature. -/
def verify_payment_signature (md5 : String → String) (amount invoiceId signature password : String)
    (shpParams : List (String × String)) : Bool :=
  strLower (md5 (signature_base amount invoiceId password shpParams)) == strLower signature

/-! ## Payment granting flow (`handlers.py` `process_payment_success`) -/

/-- Channel-name → Telegram chat id resolution used throughout
(`CHANNEL_1_ID if channel_name == "channel_1" else CHANNEL_2_ID`). -/
def chanId (cfg : Config) (ch : String) : String :=
  if ch == "channel_1" then cfg.CHANNEL_1_ID else cfg.CHANNEL_2_ID

/-- `handlers.py` `process_payment_success` (lines 160-233).
Returns the store after the writes that happened, the trace of external
effects in program order, and whether the call completed without raising.
Steps: paid Grant (upsert, may raise) → `add_user_to_channel` (never raises)
→ for `channel_2` with no prior `channel_1` row of any kind: bonus gift Grant
(may raise) → `add_user_to_channel` for channel 1 → bonus success message
(may raise, then the function returns) — otherwise the regular success
message (may raise). The invite-link creation alongside is wrapped in
`try/except` and affects only message content. -/
def process_payment_success (cfg : Config) (env : Env) (now : Int)
    (uid : Nat) (ch : String) (db : DB) : DB × List Effect × Bool :=
  let chId := chanId cfg ch
  if env.failGrant uid ch then (db, [], false)
  else
    let db1 := create_subscription db uid ch "paid" now (now + cfg.PAID_SUBSCRIPTION_DAYS) true
    let tr1 := [Effect.grant uid ch "paid", Effect.addToChannel uid chId]
    if ch == "channel_2" && !has_ever_had_subscription db1 uid "channel_1" then
      if env.failGrant uid "channel_1" then (db1, tr1, false)
      else
        let db2 := create_subscription db1 uid "channel_1" "gift" now (now + cfg.FREE_TRIAL_DAYS) true
        let tr2 := tr1 ++ [Effect.grant uid "channel_1" "gift",
                           Effect.addToChannel uid cfg.CHANNEL_1_ID]
        if env.failNotify uid then (db2, tr2, false)
        else (db2, tr2 ++ [Effect.notifyBonus uid], true)
    else
      if env.failNotify uid then (db1, tr1, false)
      else (db1, tr1 ++ [Effect.notifySuccess uid], true)

/-! ## Payment confirmation webhook (`payment_handler.py`) -/

/-- The parsed notification: `OutSum`, `InvId`, `SignatureValue` and the
extracted `Shp_`-prefixed parameters. `outSum` is the value Python's
`float(OutSum)` produces from the raw string `outSumStr`. -/
structure RobokassaRequest where
  outSumStr : String
  outSum : ℚ
  invId : String
  signatureValue : String
  shpParams : List (String × String)

/-- `payment_handler.py` `robokassa_result_handler` (lines 15-99), returning
the plain-text response body, the resulting store and the effect trace:
1. missing-parameter guard; 2. Payment lookup by `InvId`; 3. amount check
`abs(float(payment.amount) - float(OutSum)) > 0.01`; 4. channel → Password 2
resolution from the stored row; 5. signature verification; 6. the
already-`success` short circuit answering `OK{InvId}`; 7. otherwise
`process_payment_success` and, only after it completed without raising,
`update_payment_status(InvId, 'success')` — any exception of either yields
`ERROR: Processing failed` and leaves the status write unexecuted. -/
def robokassa_result_handler (cfg : Config) (env : Env) (now : Int)
    (db : DB) (req : RobokassaRequest) : String × DB × List Effect :=
  if req.outSumStr == "" || req.invId == "" || req.signatureValue == "" then
    ("ERROR: Missing parameters", db, [])
  else
    match get_payment db req.invId with
    | none => ("ERROR: Payment not found", db, [])
    | some payment =>
      if |(payment.amount : ℚ) - req.outSum| > 1/100 then
        ("ERROR: Amount mismatch", db, [])
      else
        let password? : Option String :=
          if payment.channelName == "channel_1" then some cfg.ROBOKASSA_CHANNEL_1_PASSWORD_2
          else if payment.channelName == "channel_2" then some cfg.ROBOKASSA_CHANNEL_2_PASSWORD_2
          else none
        match password? with
        | none => ("ERROR: Unknown channel", db, [])
        | some password =>
          if !verify_payment_signature env.md5 req.outSumStr req.invId req.signatureValue
              password req.shpParams then
            ("ERROR: Invalid signature", db, [])
          else if payment.status == "success" then
            ("OK" ++ req.invId, db, [])
          else
            match process_payment_success cfg env now payment.telegramId payment.channelName db with
            | (db1, tr, ok) =>
              if !ok then ("ERROR: Processing failed", db1, tr)
              else if env.failUpdateStatus then ("ERROR: Processing failed", db1, tr)
              else ("OK" ++ req.invId, update_payment_status db1 req.invId "success", tr)

/-! ## Sweeps (`scheduler.py`) -/

/-- Loop body of `check_expired_subscriptions` (`scheduler.py` 51-105) for one
selected row: re-check `end_date > now` (skip), `deactivate_subscription`,
then either record `is_banned = false` for a whitelisted pair (no external
call) or `ban_chat_member` + `set_user_banned(..., True)` — recording
`True` in the `except` branch as well, without the ended-message. -/
def processExpiredRow (cfg : Config) (env : Env) (now : Int)
    (acc : DB × List Effect) (sub : Subscription) : DB × List Effect :=
  let db := acc.1
  let tr := acc.2
  if now < sub.endDate then (db, tr)
  else
    let db1 := deactivate_subscription db sub.telegramId sub.channelName
    if is_whitelisted db1 sub.telegramId sub.channelName then
      (set_user_banned db1 now sub.telegramId sub.channelName false, tr)
    else
      let chId := chanId cfg sub.channelName
      if env.failBan chId sub.telegramId then
        (set_user_banned db1 now sub.telegramId sub.channelName true, tr)
      else
        let db2 := set_user_banned db1 now sub.telegramId sub.channelName true
        let tr2 := tr ++ [Effect.banMember sub.telegramId chId] ++
          (if env.failSendEnded sub.telegramId then []
           else [Effect.sendEnded sub.telegramId sub.channelName])
        (db2, tr2)

/-- `scheduler.py` `check_expired_subscriptions` (lines 40-105): fetch the
expired rows once, then process each in turn; a failing external call never
aborts the loop. -/
def check_expired_subscriptions (cfg : Config) (env : Env) (now : Int)
    (db : DB) : DB × List Effect :=
  (get_expired_subscriptions db now).foldl (processExpiredRow cfg env now) (db, [])

/-- Loop body of `check_reminders` (`scheduler.py` 14-38) for one pending
reminder: look up the active subscription — when there is none the row is
skipped entirely (no send, no mark) — then send the reminder and
`mark_reminder_sent`; a raising send is caught and leaves the row unmarked. -/
def processReminder (env : Env) (acc : DB × List Effect) (rem : Reminder) : DB × List Effect :=
  let db := acc.1
  let tr := acc.2
  match get_active_subscription db rem.telegramId rem.channelName with
  | none => (db, tr)
  | some _ =>
    if env.failSendReminder rem.telegramId then (db, tr)
    else
      (mark_reminder_sent db rem.telegramId rem.channelName,
       tr ++ [Effect.sendReminder rem.telegramId rem.channelName])

/-- `scheduler.py` `check_reminders` (lines 14-38). -/
def check_reminders (env : Env) (now : Int) (db : DB) : DB × List Effect :=
  (get_pending_reminders db now).foldl (processReminder env) (db, [])

/-- Row shape returned by `database.py` `get_all_users_for_verification`
(lines 614-634): one row per subscription, joined with current whitelist
presence and the `COALESCE(cm.is_banned, FALSE)` membership flag. -/
structure VerifRow where
  telegramId : Nat
  channelName : String
  isActive : Bool
  endDate : Int
  isWhitelisted : Bool
  isBanned : Bool
deriving DecidableEq

/-- `ORDER BY s.telegram_id, s.channel_name`. -/
def verifLE (a b : VerifRow) : Prop :=
  a.telegramId < b.telegramId ∨ (a.telegramId = b.telegramId ∧ a.channelName ≤ b.channelName)

instance : DecidableRel verifLE := fun a b =>
  inferInstanceAs (Decidable (a.telegramId < b.telegramId ∨
    (a.telegramId = b.telegramId ∧ a.channelName ≤ b.channelName)))

/-- `database.py` `get_all_users_for_verification`: the join, de-duplicated
(`SELECT DISTINCT`) and ordered. -/
def get_all_users_for_verification (db : DB) : List VerifRow :=
  List.insertionSort verifLE
    ((db.subscriptions.map (fun s =>
      (⟨s.telegramId, s.channelName, s.isActive, s.endDate,
        is_whitelisted db s.telegramId s.channelName,
        is_user_banned db s.telegramId s.channelName⟩ : VerifRow))).dedup)

/-- Loop body of `verify_all_subscriptions_on_startup` (`scheduler.py`
122-178) on one snapshot row: `subscription_valid = is_active ∧ end_date >
now`; `should_be_in_channel = subscription_valid ∨ is_whitelisted`; when it
should be and is recorded banned, record not-banned; when it should not be
and is not yet recorded banned, `ban_chat_member` + record banned (recording
banned also when the ban call raises, without the ended-message). -/
def processVerifRow (cfg : Config) (env : Env) (now : Int)
    (acc : DB × List Effect) (row : VerifRow) : DB × List Effect :=
  let db := acc.1
  let tr := acc.2
  let subscriptionValid := row.isActive && decide (now < row.endDate)
  let shouldBeInChannel := subscriptionValid || row.isWhitelisted
  if shouldBeInChannel then
    if row.isBanned then (set_user_banned db now row.telegramId row.channelName false, tr)
    else (db, tr)
  else if row.isBanned then (db, tr)
  else
    let chId := chanId cfg row.channelName
    if env.failBan chId row.telegramId then
      (set_user_banned db now row.telegramId row.channelName true, tr)
    else
      (set_user_banned db now row.telegramId row.channelName true,
       tr ++ [Effect.banMember row.telegramId chId] ++
         (if env.failSendEnded row.telegramId then []
          else [Effect.sendEnded row.telegramId row.channelName]))

/-- `scheduler.py` `verify_all_subscriptions_on_startup` (lines 107-180):
snapshot the join once, then process every row. -/
def verify_all_subscriptions_on_startup (cfg : Config) (env : Env) (now : Int)
    (db : DB) : DB × List Effect :=
  (get_all_users_for_verification db).foldl (processVerifRow cfg env now) (db, [])

/-! ## Frame lemmas: which tables each store operation leaves untouched -/

theorem create_subscription_payments (db : DB) (uid : Nat) (ch m : String) (sd ed : Int) (a : Bool) :
    (create_subscription db uid ch m sd ed a).payments = db.payments := by
  unfold create_subscription; split <;> rfl

theorem create_subscription_reminders (db : DB) (uid : Nat) (ch m : String) (sd ed : Int) (a : Bool) :
    (create_subscription db uid ch m sd ed a).reminders = db.reminders := by
  unfold create_subscription; split <;> rfl

theorem create_subscription_whitelist (db : DB) (uid : Nat) (ch m : String) (sd ed : Int) (a : Bool) :
    (create_subscription db uid ch m sd ed a).whitelist = db.whitelist := by
  unfold create_subscription; split <;> rfl

theorem create_subscription_memberships (db : DB) (uid : Nat) (ch m : String) (sd ed : Int) (a : Bool) :
    (create_subscription db uid ch m sd ed a).memberships = db.memberships := by
  unfold create_subscription; split <;> rfl

theorem set_user_banned_subscriptions (db : DB) (now : Int) (uid : Nat) (ch : String) (b : Bool) :
    (set_user_banned db now uid ch b).subscriptions = db.subscriptions := by
  unfold set_user_banned; split <;> rfl

theorem set_user_banned_whitelist (db : DB) (now : Int) (uid : Nat) (ch : String) (b : Bool) :
    (set_user_banned db now uid ch b).whitelist = db.whitelist := by
  unfold set_user_banned; split <;> rfl

theorem set_user_banned_payments (db : DB) (now : Int) (uid : Nat) (ch : String) (b : Bool) :
    (set_user_banned db now uid ch b).payments = db.payments := by
  unfold set_user_banned; split <;> rfl

theorem set_user_banned_reminders (db : DB) (now : Int) (uid : Nat) (ch : String) (b : Bool) :
    (set_user_banned db now uid ch b).reminders = db.reminders := by
  unfold set_user_banned; split <;> rfl

theorem deactivate_subscription_whitelist (db : DB) (uid : Nat) (ch : String) :
    (deactivate_subscription db uid ch).whitelist = db.whitelist := rfl

theorem deactivate_subscription_memberships (db : DB) (uid : Nat) (ch : String) :
    (deactivate_subscription db uid ch).memberships = db.memberships := rfl

theorem mark_reminder_sent_subscriptions (db : DB) (uid : Nat) (ch : String) :
    (mark_reminder_sent db uid ch).subscriptions = db.subscriptions := rfl

/-- `process_payment_success` writes only the `subscriptions` table. -/
theorem process_payment_success_payments (cfg : Config) (env : Env) (now : Int)
    (uid : Nat) (ch : String) (db : DB) :
    (process_payment_success cfg env now uid ch db).1.payments = db.payments := by
  unfold process_payment_success
  dsimp only
  repeat' split
  all_goals simp [create_subscription_payments]

/-! ## Concrete sample data for witnesses and counterexamples -/

/-- Sample configuration (two distinct channels, a 7-day trial, a 30-day paid
period, distinct gateway secrets). -/
def cfg0 : Config :=
  { CHANNEL_1_ID := "-100111", CHANNEL_2_ID := "-100222",
    CHANNEL_1_PRICE := 1990, CHANNEL_2_PRICE := 2990,
    FREE_TRIAL_DAYS := 7, PAID_SUBSCRIPTION_DAYS := 30,
    ROBOKASSA_CHANNEL_1_PASSWORD_2 := "pw1", ROBOKASSA_CHANNEL_2_PASSWORD_2 := "pw2" }

/-- Environment in which no external call fails and the hash primitive is a
fixed function (any request carrying the digest below verifies). -/
def env0 : Env :=
  { md5 := fun _ => "d41d8cd98f00b204e9800998ecf8427e",
    failGrant := fun _ _ => false, failNotify := fun _ => false,
    failBan := fun _ _ => false, failSendEnded := fun _ => false,
    failSendReminder := fun _ => false, failUpdateStatus := false }


/-- Reduction of the webhook handler through its validation prefix: when the
parameters are present, the Payment is found, the amount is within the
tolerance, the channel resolves to a secret and the signature verifies, the
handler's behaviour is exactly the already-`success` short-circuit /
process-then-mark tail. Shared spine of the confirmation claims. -/
theorem handler_reduction (cfg : Config) (env : Env) (now : Int) (db : DB)
    (req : RobokassaRequest) (p : Payment) (pw : String)
    (hOut : req.outSumStr ≠ "") (hInv : req.invId ≠ "") (hSig : req.signatureValue ≠ "")
    (hlook : get_payment db req.invId = some p)
    (hamt : |(p.amount : ℚ) - req.outSum| ≤ 1 / 100)
    (hpw : (if p.channelName == "channel_1" then some cfg.ROBOKASSA_CHANNEL_1_PASSWORD_2
            else if p.channelName == "channel_2" then some cfg.ROBOKASSA_CHANNEL_2_PASSWORD_2
            else none) = some pw)
    (hver : verify_payment_signature env.md5 req.outSumStr req.invId req.signatureValue
      pw req.shpParams = true) :
    robokassa_result_handler cfg env now db req =
      (if p.status == "success" then ("OK" ++ req.invId, db, [])
       else
        match process_payment_success cfg env now p.telegramId p.channelName db with
        | (db1, tr, ok) =>
          if !ok then ("ERROR: Processing failed", db1, tr)
          else if env.failUpdateStatus then ("ERROR: Processing failed", db1, tr)
          else ("OK" ++ req.invId, update_payment_status db1 req.invId "success", tr)) := by
  have h0 : (req.outSumStr == "" || req.invId == "" || req.signatureValue == "") = false := by
    simp [hOut, hInv, hSig]
  unfold robokassa_result_handler
  simp only [h0, hlook, Bool.false_eq_true, if_false]
  rw [if_neg (not_lt.mpr hamt), hpw]
  simp only [hver, Bool.not_true, Bool.false_eq_true, if_false]

/-! ## Claim C2: repeated confirmation of an already-successful payment -/

/-- Claim C2: when the stored Payment of the invoice is already `success` and
the repeated call passes the same validation (amount within tolerance,
resolvable channel, valid signature), the handler answers the very
acknowledgment token `"OK" ++ InvId` that the original successful call
produced (its success path returns the same string), returns the store
exactly unchanged — no Payment, Subscription, Reminder or ChannelMembership
row is created or modified — and performs no external effect. -/
theorem confirm_already_success_idempotent
    (cfg : Config) (env : Env) (now : Int) (db : DB) (req : RobokassaRequest)
    (p : Payment) (pw : String)
    (hOut : req.outSumStr ≠ "") (hInv : req.invId ≠ "") (hSig : req.signatureValue ≠ "")
    (hlook : get_payment db req.invId = some p)
    (hamt : |(p.amount : ℚ) - req.outSum| ≤ 1 / 100)
    (hpw : (if p.channelName == "channel_1" then some cfg.ROBOKASSA_CHANNEL_1_PASSWORD_2
            else if p.channelName == "channel_2" then some cfg.ROBOKASSA_CHANNEL_2_PASSWORD_2
            else none) = some pw)
    (hver : verify_payment_signature env.md5 req.outSumStr req.invId req.signatureValue
      pw req.shpParams = true)
    (hsucc : p.status = "success") :
    robokassa_result_handler cfg env now db req = ("OK" ++ req.invId, db, []) := by
  rw [handler_reduction cfg env now db req p pw hOut hInv hSig hlook hamt hpw hver]
  simp [hsucc]

/-- Stored state for the C2 witness: invoice `"42"` already confirmed. -/
def dbC2 : DB :=
  { users := [7], subscriptions := [⟨7, "channel_1", true, "paid", 0, 30⟩],
    payments := [⟨7, "channel_1", 1990, "42", "success"⟩],
    reminders := [], whitelist := [], memberships := [] }

/-- Redelivered notification for invoice `"42"`: matching amount, signature
equal to `env0`'s digest (hence valid). -/
def reqC2 : RobokassaRequest :=
  { outSumStr := "1990.00", outSum := 1990, invId := "42",
    signatureValue := "d41d8cd98f00b204e9800998ecf8427e", shpParams := [] }

theorem confirm_already_success_idempotent_witness :
    robokassa_result_handler cfg0 env0 0 dbC2 reqC2 = ("OK" ++ reqC2.invId, dbC2, []) :=
  confirm_already_success_idempotent cfg0 env0 0 dbC2 reqC2
    ⟨7, "channel_1", 1990, "42", "success"⟩ "pw1"
    (by decide) (by decide) (by decide) (by decide)
    (by norm_num [reqC2]) (by decide) (by decide) rfl

/-! ## Claim C5: failed signature check mutates nothing -/

/-- Claim C5: when the handler reaches the signature check (the Payment was
found, its channel resolves to a secret, the amount is within tolerance) and
the check fails, the response is the invalid-signature error and the store
comes back exactly as it was — the payment stays `pending`, and no Payment,
Subscription or ChannelMembership row is mutated — with no external effect. -/
theorem confirm_bad_signature_no_mutation
    (cfg : Config) (env : Env) (now : Int) (db : DB) (req : RobokassaRequest)
    (p : Payment) (pw : String)
    (hOut : req.outSumStr ≠ "") (hInv : req.invId ≠ "") (hSig : req.signatureValue ≠ "")
    (hlook : get_payment db req.invId = some p)
    (hamt : |(p.amount : ℚ) - req.outSum| ≤ 1 / 100)
    (hpw : (if p.channelName == "channel_1" then some cfg.ROBOKASSA_CHANNEL_1_PASSWORD_2
            else if p.channelName == "channel_2" then some cfg.ROBOKASSA_CHANNEL_2_PASSWORD_2
            else none) = some pw)
    (hver : verify_payment_signature env.md5 req.outSumStr req.invId req.signatureValue
      pw req.shpParams = false) :
    robokassa_result_handler cfg env now db req = ("ERROR: Invalid signature", db, []) := by
  have h0 : (req.outSumStr == "" || req.invId == "" || req.signatureValue == "") = false := by
    simp [hOut, hInv, hSig]
  unfold robokassa_result_handler
  simp only [h0, hlook, Bool.false_eq_true, if_false]
  rw [if_neg (not_lt.mpr hamt), hpw]
  simp [hver]

/-- Stored state for the C5 witness: invoice `"43"` still pending. -/
def dbC5 : DB :=
  { users := [8], subscriptions := [],
    payments := [⟨8, "channel_2", 2990, "43", "pending"⟩],
    reminders := [], whitelist := [], memberships := [] }

/-- Notification for invoice `"43"`: matching amount but a signature that does
not match `env0`'s digest. -/
def reqC5 : RobokassaRequest :=
  { outSumStr := "2990.00", outSum := 2990, invId := "43",
    signatureValue := "deadbeef", shpParams := [] }

theorem confirm_bad_signature_no_mutation_witness :
    robokassa_result_handler cfg0 env0 0 dbC5 reqC5 = ("ERROR: Invalid signature", dbC5, []) :=
  confirm_bad_signature_no_mutation cfg0 env0 0 dbC5 reqC5
    ⟨8, "channel_2", 2990, "43", "pending"⟩ "pw2"
    (by decide) (by decide) (by decide) (by decide)
    (by norm_num [reqC5]) (by decide) (by decide)

/-! ## Claim C6: order of the amount and signature checks -/

/-- Stored state for C6: invoice `"44"` pending, stored amount 1990. -/
def dbC6 : DB :=
  { users := [9], subscriptions := [],
    payments := [⟨9, "channel_1", 1990, "44", "pending"⟩],
    reminders := [], whitelist := [], memberships := [] }

/-- Notification for invoice `"44"` whose reported amount (1000) is far off
the stored amount AND whose signature is invalid. -/
def reqC6 : RobokassaRequest :=
  { outSumStr := "1000.00", outSum := 1000, invId := "44",
    signatureValue := "deadbeef", shpParams := [] }

/-- Claim C6 counterexample: at this concrete input the signature is invalid
and the reported amount also differs from the stored amount beyond the
tolerance, yet the handler answers the amount-mismatch error — not the
invalid-signature error the claim predicts — because the code compares the
amount before it verifies the signature. -/
theorem confirm_amount_before_signature_cex :
    robokassa_result_handler cfg0 env0 0 dbC6 reqC6 = ("ERROR: Amount mismatch", dbC6, [])
    ∧ verify_payment_signature env0.md5 reqC6.outSumStr reqC6.invId reqC6.signatureValue
        cfg0.ROBOKASSA_CHANNEL_1_PASSWORD_2 reqC6.shpParams = false
    ∧ |((1990 : Int) : ℚ) - reqC6.outSum| > 1 / 100
    ∧ ("ERROR: Amount mismatch" : String) ≠ "ERROR: Invalid signature" := by
  refine ⟨?_, by decide, by norm_num [reqC6], by decide⟩
  have h0 : (reqC6.outSumStr == "" || reqC6.invId == "" || reqC6.signatureValue == "") = false := by
    decide
  have hlook : get_payment dbC6 reqC6.invId = some ⟨9, "channel_1", 1990, "44", "pending"⟩ := by
    decide
  have hamt : |(((⟨9, "channel_1", 1990, "44", "pending"⟩ : Payment).amount : ℚ)) - reqC6.outSum|
      > 1 / 100 := by norm_num [reqC6]
  unfold robokassa_result_handler
  simp only [h0, hlook, Bool.false_eq_true, if_false]
  rw [if_pos hamt]

/-- Claim C6 (amended): the handler validates in the order lookup → amount →
channel resolution → signature: after the Payment lookup it first compares
the reported amount with the stored one within the absolute tolerance and
answers the amount-mismatch error on failure — before the signature is even
recomputed — and only when the amount check passes does it recompute the MD5
over `amount:invoice_id:channel_secret` (sorted `key=value` extras appended)
with the secret of the channel resolved from the stored Payment row, compare
case-insensitively, and answer the invalid-signature error on mismatch. In
particular a request with both a bad amount and a bad signature yields the
amount-mismatch error. -/
theorem confirm_amount_checked_before_signature
    (cfg : Config) (env : Env) (now : Int) (db : DB) (req : RobokassaRequest) (p : Payment)
    (hOut : req.outSumStr ≠ "") (hInv : req.invId ≠ "") (hSig : req.signatureValue ≠ "")
    (hlook : get_payment db req.invId = some p) :
    (|(p.amount : ℚ) - req.outSum| > 1 / 100 →
      robokassa_result_handler cfg env now db req = ("ERROR: Amount mismatch", db, []))
    ∧ (∀ pw, |(p.amount : ℚ) - req.outSum| ≤ 1 / 100 →
        (if p.channelName == "channel_1" then some cfg.ROBOKASSA_CHANNEL_1_PASSWORD_2
         else if p.channelName == "channel_2" then some cfg.ROBOKASSA_CHANNEL_2_PASSWORD_2
         else none) = some pw →
        verify_payment_signature env.md5 req.outSumStr req.invId req.signatureValue
          pw req.shpParams = false →
        robokassa_result_handler cfg env now db req = ("ERROR: Invalid signature", db, [])) := by
  have h0 : (req.outSumStr == "" || req.invId == "" || req.signatureValue == "") = false := by
    simp [hOut, hInv, hSig]
  constructor
  · intro hamt
    unfold robokassa_result_handler
    simp only [h0, hlook, Bool.false_eq_true, if_false]
    rw [if_pos hamt]
  · intro pw hamt hpw hver
    unfold robokassa_result_handler
    simp only [h0, hlook, Bool.false_eq_true, if_false]
    rw [if_neg (not_lt.mpr hamt), hpw]
    simp [hver]

theorem confirm_amount_checked_before_signature_witness :
    robokassa_result_handler cfg0 env0 0 dbC6 reqC6 = ("ERROR: Amount mismatch", dbC6, []) :=
  (confirm_amount_checked_before_signature cfg0 env0 0 dbC6 reqC6
    ⟨9, "channel_1", 1990, "44", "pending"⟩
    (by decide) (by decide) (by decide) (by decide)).1 (by norm_num [reqC6])

/-! ## Claim C7: which rows one sweep run selects, and in which order -/

/-- An active subscription whose end date will equal the sweep time. -/
def subC7 : Subscription := ⟨5, "channel_1", true, "paid", 0, 100⟩

def dbC7 : DB :=
  { users := [5], subscriptions := [subC7], payments := [],
    reminders := [], whitelist := [], memberships := [] }

/-- Claim C7 counterexample: a Subscription whose end date equals the current
time (`end = now = 100`) is active yet is NOT selected by the sweep's query
(the SQL compares `end_date < now` strictly), and the sweep run leaves the
store untouched — the claim says such a row is selected and expired. -/
theorem sweep_end_equal_now_not_selected_cex :
    subC7 ∈ dbC7.subscriptions ∧ subC7.isActive = true ∧ subC7.endDate = 100
    ∧ get_expired_subscriptions dbC7 100 = []
    ∧ check_expired_subscriptions cfg0 env0 100 dbC7 = (dbC7, []) := by decide

/-- Claim C7 (amended): one run of the periodic sweep selects exactly the
Subscription rows with `active = true` and `end < now` strictly — a row whose
end date equals the current time is NOT selected by that run (it is picked up
by a later run once `now` has passed it) — the selected list is in ascending
end-date order, and the sweep processes exactly that list left to right. -/
theorem sweep_selects_strictly_expired_in_order
    (cfg : Config) (env : Env) (db : DB) (now : Int) :
    (∀ s, s ∈ get_expired_subscriptions db now ↔
        (s ∈ db.subscriptions ∧ s.isActive = true ∧ s.endDate < now))
    ∧ (get_expired_subscriptions db now).Sorted endLE
    ∧ check_expired_subscriptions cfg env now db =
        (get_expired_subscriptions db now).foldl (processExpiredRow cfg env now) (db, []) := by
  refine ⟨fun s => ?_, List.sorted_insertionSort _ _, rfl⟩
  unfold get_expired_subscriptions
  rw [List.mem_insertionSort]
  simp [List.mem_filter, and_assoc]

theorem sweep_selects_strictly_expired_in_order_witness :
    subC7 ∈ get_expired_subscriptions dbC7 200 ↔
      (subC7 ∈ dbC7.subscriptions ∧ subC7.isActive = true ∧ subC7.endDate < 200) :=
  (sweep_selects_strictly_expired_in_order cfg0 env0 dbC7 200).1 subC7

/-! ## Claim C1: effects-then-flip discipline of the confirmation handler -/

/-- The upsert's row update rewrites only non-key fields, so any key
predicate is unchanged on the updated row. -/
theorem subKey_create_update (uid : Nat) (ch m : String) (sd ed : Int) (a : Bool)
    (uid' : Nat) (ch' : String) (s : Subscription) :
    subKey uid' ch' (if subKey uid ch s then
      { s with isActive := a, paymentMethod := m, startDate := sd, endDate := ed }
    else s) = subKey uid' ch' s := by
  split <;> rfl

/-- Granting one pair never changes `has_ever_had_subscription` of a
different pair. -/
theorem has_ever_create_subscription (db : DB) (uid : Nat) (ch m : String)
    (sd ed : Int) (a : Bool) (uid' : Nat) (ch' : String)
    (h : ch' ≠ ch ∨ uid' ≠ uid) :
    has_ever_had_subscription (create_subscription db uid ch m sd ed a) uid' ch' =
      has_ever_had_subscription db uid' ch' := by
  unfold has_ever_had_subscription create_subscription
  split
  · simp only [List.any_map]
    congr 1
    funext s
    exact subKey_create_update uid ch m sd ed a uid' ch' s
  · have hrow : subKey uid' ch' ⟨uid, ch, a, m, sd, ed⟩ = false := by
      rcases h with h | h <;> simp [subKey, h, Ne.symm h]
    simp [List.any_append, hrow]

theorem get_payment_create_subscription (db : DB) (uid : Nat) (ch m : String)
    (sd ed : Int) (a : Bool) (pid : String) :
    get_payment (create_subscription db uid ch m sd ed a) pid = get_payment db pid := by
  unfold get_payment
  rw [create_subscription_payments]

/-- Reading a payment back after the status update yields the stored row with
the new status. -/
theorem get_payment_update_payment_status (db : DB) (pid st : String) :
    get_payment (update_payment_status db pid st) pid =
      (get_payment db pid).map (fun q => { q with status := st }) := by
  unfold get_payment update_payment_status
  dsimp only
  rw [List.find?_map]
  have hpred : ((fun p => p.paymentId == pid) ∘
      (fun p : Payment => if (p.paymentId == pid) = true then { p with status := st } else p)) =
      (fun p : Payment => p.paymentId == pid) := by
    funext q
    by_cases h : (q.paymentId == pid) = true <;> simp [Function.comp, h]
  rw [hpred]
  cases hf : db.payments.find? (fun p => p.paymentId == pid) with
  | none => rfl
  | some q =>
    have hq : q.paymentId = pid := by
      have h2 := List.find?_some hf
      simpa using h2
    simp [hq]

/-- Claim C1: for a stored `pending` payment that passes the lookup, amount
and signature checks, the handler applies the side effects in source order —
paid Grant, add-to-channel, conditionally the channel-1 bonus gift Grant plus
its add-to-channel, then the success notification — and flips the Payment to
`success` only after every one of them (and the flip itself) completed
without raising: on the no-failure run the response is the acknowledgment,
the stored row reads back with status `success`, and the trace is exactly the
ordered effect list; when any step raises, the payments table is returned
exactly as it was (the status stays `pending`, never `success`) and the
handler answers the processing-failed error instead of the acknowledgment. -/
theorem confirm_pending_effects_then_flip
    (cfg : Config) (env : Env) (now : Int) (db : DB) (req : RobokassaRequest)
    (p : Payment) (pw : String)
    (hOut : req.outSumStr ≠ "") (hInv : req.invId ≠ "") (hSig : req.signatureValue ≠ "")
    (hlook : get_payment db req.invId = some p)
    (hamt : |(p.amount : ℚ) - req.outSum| ≤ 1 / 100)
    (hpw : (if p.channelName == "channel_1" then some cfg.ROBOKASSA_CHANNEL_1_PASSWORD_2
            else if p.channelName == "channel_2" then some cfg.ROBOKASSA_CHANNEL_2_PASSWORD_2
            else none) = some pw)
    (hver : verify_payment_signature env.md5 req.outSumStr req.invId req.signatureValue
      pw req.shpParams = true)
    (hpend : p.status = "pending") :
    ((env.failGrant p.telegramId p.channelName
        || ((p.channelName == "channel_2" && !has_ever_had_subscription db p.telegramId "channel_1")
             && env.failGrant p.telegramId "channel_1")
        || env.failNotify p.telegramId || env.failUpdateStatus) = false →
      (robokassa_result_handler cfg env now db req).1 = "OK" ++ req.invId
      ∧ get_payment (robokassa_result_handler cfg env now db req).2.1 req.invId =
          some { p with status := "success" }
      ∧ (robokassa_result_handler cfg env now db req).2.2 =
          [Effect.grant p.telegramId p.channelName "paid",
           Effect.addToChannel p.telegramId (chanId cfg p.channelName)] ++
          (if p.channelName == "channel_2" && !has_ever_had_subscription db p.telegramId "channel_1"
           then [Effect.grant p.telegramId "channel_1" "gift",
                 Effect.addToChannel p.telegramId cfg.CHANNEL_1_ID,
                 Effect.notifyBonus p.telegramId]
           else [Effect.notifySuccess p.telegramId]))
    ∧ ((env.failGrant p.telegramId p.channelName
        || ((p.channelName == "channel_2" && !has_ever_had_subscription db p.telegramId "channel_1")
             && env.failGrant p.telegramId "channel_1")
        || env.failNotify p.telegramId || env.failUpdateStatus) = true →
      (robokassa_result_handler cfg env now db req).1 = "ERROR: Processing failed"
      ∧ (robokassa_result_handler cfg env now db req).2.1.payments = db.payments) := by
  rw [handler_reduction cfg env now db req p pw hOut hInv hSig hlook hamt hpw hver]
  have hps : (p.status == "success") = false := by rw [hpend]; decide
  simp only [hps, Bool.false_eq_true, if_false]
  unfold process_payment_success
  dsimp only
  have hbe : (p.channelName == "channel_2"
      && !has_ever_had_subscription (create_subscription db p.telegramId p.channelName "paid" now
          (now + cfg.PAID_SUBSCRIPTION_DAYS) true) p.telegramId "channel_1")
      = (p.channelName == "channel_2" && !has_ever_had_subscription db p.telegramId "channel_1") := by
    cases hc2 : (p.channelName == "channel_2") with
    | false => simp
    | true =>
      have hch : p.channelName = "channel_2" := by simpa using hc2
      rw [has_ever_create_subscription db p.telegramId p.channelName "paid" now
            (now + cfg.PAID_SUBSCRIPTION_DAYS) true p.telegramId "channel_1"
            (Or.inl (by rw [hch]; decide))]
  rw [hbe]
  cases hfg : env.failGrant p.telegramId p.channelName <;>
    cases hb : (p.channelName == "channel_2" && !has_ever_had_subscription db p.telegramId "channel_1") <;>
      cases hfg1 : env.failGrant p.telegramId "channel_1" <;>
        cases hn : env.failNotify p.telegramId <;>
          cases hu : env.failUpdateStatus <;>
            simp [hfg, hb, hfg1, hn, hu, get_payment_update_payment_status,
              get_payment_create_subscription, hlook, create_subscription_payments]

/-- Pending payment for the C1 witness. -/
def dbC1 : DB :=
  { users := [10], subscriptions := [],
    payments := [⟨10, "channel_1", 1990, "45", "pending"⟩],
    reminders := [], whitelist := [], memberships := [] }

/-- Valid notification for invoice `"45"`. -/
def reqC1 : RobokassaRequest :=
  { outSumStr := "1990.00", outSum := 1990, invId := "45",
    signatureValue := "d41d8cd98f00b204e9800998ecf8427e", shpParams := [] }

theorem confirm_pending_effects_then_flip_witness :
    (robokassa_result_handler cfg0 env0 0 dbC1 reqC1).1 = "OK" ++ reqC1.invId
    ∧ get_payment (robokassa_result_handler cfg0 env0 0 dbC1 reqC1).2.1 reqC1.invId =
        some ⟨10, "channel_1", 1990, "45", "success"⟩
    ∧ (robokassa_result_handler cfg0 env0 0 dbC1 reqC1).2.2 =
        [Effect.grant 10 "channel_1" "paid", Effect.addToChannel 10 "-100111",
         Effect.notifySuccess 10] :=
  (confirm_pending_effects_then_flip cfg0 env0 0 dbC1 reqC1
    ⟨10, "channel_1", 1990, "45", "pending"⟩ "pw1"
    (by decide) (by decide) (by decide) (by decide) (by norm_num [reqC1])
    (by decide) (by decide) rfl).1 (by decide)

/-! ## Claim C8: the channel-1 bonus rule of a channel-2 grant -/

/-- Filtering is unchanged by a map that neither moves elements across the
predicate nor rewrites the elements inside it. -/
theorem filter_map_eq_of {α : Type} (l : List α) (f : α → α) (p : α → Bool)
    (h1 : ∀ x, p (f x) = p x) (h2 : ∀ x, p x = true → f x = x) :
    (l.map f).filter p = l.filter p := by
  induction l with
  | nil => rfl
  | cons a t ih =>
    by_cases hp : p a = true
    · simp only [List.map_cons, List.filter_cons, h1, hp, if_true, h2 a hp, ih]
    · simp only [List.map_cons, List.filter_cons, h1, hp, Bool.false_eq_true, if_false, ih]

/-- Granting one pair leaves the stored rows of any other pair untouched. -/
theorem filter_subKey_create_other (db : DB) (uid : Nat) (ch m : String)
    (sd ed : Int) (a : Bool) (uid' : Nat) (ch' : String)
    (h : ch' ≠ ch ∨ uid' ≠ uid) :
    (create_subscription db uid ch m sd ed a).subscriptions.filter (subKey uid' ch') =
      db.subscriptions.filter (subKey uid' ch') := by
  unfold create_subscription
  split
  · apply filter_map_eq_of
    · exact fun s => subKey_create_update uid ch m sd ed a uid' ch' s
    · intro s hs
      split
      · next hk =>
        exfalso
        have h1 : s.telegramId = uid' ∧ s.channelName = ch' := by
          simpa [subKey] using hs
        have h2 : s.telegramId = uid ∧ s.channelName = ch := by
          simpa [subKey] using hk
        rcases h with h | h
        · exact h (h1.2 ▸ h2.2 ▸ rfl)
        · exact h (h1.1 ▸ h2.1 ▸ rfl)
      · rfl
  · have hrow : subKey uid' ch' ⟨uid, ch, a, m, sd, ed⟩ = false := by
      rcases h with h | h <;> simp [subKey, h, Ne.symm h]
    simp [List.filter_append, hrow]

/-- Upserting a pair with no existing row appends exactly one row: the
pair-filtered view afterwards is that single new row. -/
theorem create_subscription_filter_self_new (db : DB) (uid : Nat) (ch m : String)
    (sd ed : Int) (a : Bool)
    (h : db.subscriptions.any (subKey uid ch) = false) :
    (create_subscription db uid ch m sd ed a).subscriptions.filter (subKey uid ch) =
      [⟨uid, ch, a, m, sd, ed⟩] := by
  unfold create_subscription
  rw [if_neg (by simp [h])]
  dsimp only
  rw [List.filter_append]
  have hfilter0 : db.subscriptions.filter (subKey uid ch) = [] := by
    rw [List.filter_eq_nil_iff]
    intro s hs
    have h2 := List.any_eq_false.mp h s hs
    simpa using h2
  rw [hfilter0]
  simp [subKey]

/-- Claim C8: `process_payment_success` for `channel_2` grants the channel-1
bonus exactly when the user has no prior channel-1 row of any kind: with no
prior row it creates the single active `gift` channel-1 Subscription with the
free-trial-length period and emits the channel-1 add-to-channel effect; with
any existing channel-1 row (active or expired) the channel-1 rows are
returned untouched and no gift grant is emitted. -/
theorem bonus_grant_rule (cfg : Config) (env : Env) (now : Int) (uid : Nat) (db : DB)
    (hg2 : env.failGrant uid "channel_2" = false)
    (hg1 : env.failGrant uid "channel_1" = false) :
    (has_ever_had_subscription db uid "channel_1" = false →
      (process_payment_success cfg env now uid "channel_2" db).1.subscriptions.filter
          (subKey uid "channel_1")
        = [⟨uid, "channel_1", true, "gift", now, now + cfg.FREE_TRIAL_DAYS⟩]
      ∧ Effect.grant uid "channel_1" "gift" ∈ (process_payment_success cfg env now uid "channel_2" db).2.1
      ∧ Effect.addToChannel uid cfg.CHANNEL_1_ID ∈ (process_payment_success cfg env now uid "channel_2" db).2.1)
    ∧ (has_ever_had_subscription db uid "channel_1" = true →
      (process_payment_success cfg env now uid "channel_2" db).1.subscriptions.filter
          (subKey uid "channel_1")
        = db.subscriptions.filter (subKey uid "channel_1")
      ∧ Effect.grant uid "channel_1" "gift" ∉ (process_payment_success cfg env now uid "channel_2" db).2.1) := by
  have hkeep : has_ever_had_subscription
      (create_subscription db uid "channel_2" "paid" now (now + cfg.PAID_SUBSCRIPTION_DAYS) true)
      uid "channel_1" = has_ever_had_subscription db uid "channel_1" :=
    has_ever_create_subscription db uid "channel_2" "paid" now
      (now + cfg.PAID_SUBSCRIPTION_DAYS) true uid "channel_1" (Or.inl (by decide))
  constructor
  · intro hno
    have hno1 : (create_subscription db uid "channel_2" "paid" now
        (now + cfg.PAID_SUBSCRIPTION_DAYS) true).subscriptions.any (subKey uid "channel_1") = false := by
      have h2 := hkeep.trans hno
      simpa [has_ever_had_subscription] using h2
    unfold process_payment_success
    cases hn : env.failNotify uid <;>
      simp only [hg2, hg1, hn, hkeep, hno, Bool.not_false, Bool.and_true, beq_self_eq_true,
        Bool.true_and, Bool.false_eq_true, if_false, if_true, eq_self_iff_true] <;>
      exact ⟨create_subscription_filter_self_new _ uid "channel_1" "gift" now
          (now + cfg.FREE_TRIAL_DAYS) true hno1, by simp, by simp⟩
  · intro hyes
    unfold process_payment_success
    cases hn : env.failNotify uid <;>
      simp only [hg2, hn, hkeep, hyes, Bool.not_true, Bool.and_false, Bool.false_eq_true,
        if_false, if_true, eq_self_iff_true] <;>
      exact ⟨filter_subKey_create_other db uid "channel_2" "paid" now
          (now + cfg.PAID_SUBSCRIPTION_DAYS) true uid "channel_1" (Or.inl (by decide)),
        by simp⟩

/-- C8 witness state: a user with no subscription history at all. -/
def dbC8 : DB :=
  { users := [12], subscriptions := [], payments := [],
    reminders := [], whitelist := [], memberships := [] }

theorem bonus_grant_rule_witness :
    (process_payment_success cfg0 env0 0 12 "channel_2" dbC8).1.subscriptions.filter
        (subKey 12 "channel_1")
      = [⟨12, "channel_1", true, "gift", 0, 0 + cfg0.FREE_TRIAL_DAYS⟩]
    ∧ Effect.grant 12 "channel_1" "gift" ∈ (process_payment_success cfg0 env0 0 12 "channel_2" dbC8).2.1
    ∧ Effect.addToChannel 12 cfg0.CHANNEL_1_ID ∈ (process_payment_success cfg0 env0 0 12 "channel_2" dbC8).2.1 :=
  (bonus_grant_rule cfg0 env0 0 12 dbC8 rfl rfl).1 rfl

/-! ## Claim C10: `channel_memberships` stays in sync with the whitelist -/

/-- Explicit form of the membership table after `set_user_banned`. -/
theorem set_user_banned_memberships (db : DB) (now : Int) (uid : Nat) (ch : String) (b : Bool) :
    (set_user_banned db now uid ch b).memberships =
      (if db.memberships.any (memKey uid ch) then
        db.memberships.map (fun m => if memKey uid ch m then
          { m with isBanned := b, isWhitelisted := is_whitelisted db uid ch,
                   bannedAt := if b then some now else none, lastVerified := now } else m)
       else db.memberships ++
         [⟨uid, ch, b, is_whitelisted db uid ch, if b then some now else none, now⟩]) := by
  unfold set_user_banned
  dsimp only
  split <;> rfl

/-- Explicit form of the membership table after `add_whitelist_user`. -/
theorem add_whitelist_user_memberships (db : DB) (now : Int) (uid : Nat) (ch : String) :
    (add_whitelist_user db now uid ch).memberships =
      (if db.memberships.any (memKey uid ch) then
        db.memberships.map (fun m => if memKey uid ch m then
          { m with isBanned := false, isWhitelisted := true,
                   bannedAt := none, lastVerified := now } else m)
       else db.memberships ++ [⟨uid, ch, false, true, none, now⟩]) := by
  unfold add_whitelist_user
  dsimp only
  repeat' split
  all_goals rfl

/-- Explicit form of the membership table after `remove_whitelist_user`. -/
theorem remove_whitelist_user_memberships (db : DB) (now : Int) (uid : Nat) (ch : String) :
    (remove_whitelist_user db now uid ch).memberships =
      db.memberships.map (fun m => if memKey uid ch m then
        { m with isWhitelisted := false, lastVerified := now } else m) := rfl

/-- `set_user_banned` does not change whitelist presence. -/
theorem is_whitelisted_set_user_banned (db : DB) (now : Int) (uid : Nat) (ch : String) (b : Bool)
    (uid' : Nat) (ch' : String) :
    is_whitelisted (set_user_banned db now uid ch b) uid' ch' = is_whitelisted db uid' ch' := by
  unfold is_whitelisted
  rw [set_user_banned_whitelist]

/-- After `add_whitelist_user` the pair is present in the whitelist table. -/
theorem is_whitelisted_add_self (db : DB) (now : Int) (uid : Nat) (ch : String) :
    is_whitelisted (add_whitelist_user db now uid ch) uid ch = true := by
  unfold add_whitelist_user is_whitelisted
  dsimp only
  repeat' split
  all_goals simp_all

/-- After `remove_whitelist_user` the pair is absent from the whitelist table. -/
theorem is_whitelisted_remove_self (db : DB) (now : Int) (uid : Nat) (ch : String) :
    is_whitelisted (remove_whitelist_user db now uid ch) uid ch = false := by
  unfold remove_whitelist_user is_whitelisted
  dsimp only
  rw [List.any_eq_false]
  intro w hw
  have h2 := (List.mem_filter.mp hw).2
  simp only [Bool.not_eq_true'] at h2
  simp [h2]

/-- Claim C10: after each of `set_user_banned`, `add_whitelist_user` and
`remove_whitelist_user`, every membership row of the affected pair has its
`is_whitelisted` flag equal to the pair's current presence in the whitelist
table, and `banned_at` non-NULL exactly when `is_banned` is true — so any
call recording `is_banned = false` also clears `banned_at` to NULL. For
`remove_whitelist_user`, which touches neither `is_banned` nor `banned_at`,
the timestamp consistency holds provided it held before the call (every
writer of the table establishes it, so it is an invariant of reachable
states). -/
theorem membership_sync_invariant (db : DB) (now : Int) (uid : Nat) (ch : String) (b : Bool) :
    (∀ m ∈ (set_user_banned db now uid ch b).memberships, memKey uid ch m = true →
       m.isWhitelisted = is_whitelisted (set_user_banned db now uid ch b) uid ch
       ∧ (m.bannedAt ≠ none ↔ m.isBanned = true))
    ∧ (∀ m ∈ (add_whitelist_user db now uid ch).memberships, memKey uid ch m = true →
       m.isWhitelisted = is_whitelisted (add_whitelist_user db now uid ch) uid ch
       ∧ (m.bannedAt ≠ none ↔ m.isBanned = true))
    ∧ ((∀ m ∈ db.memberships, memKey uid ch m = true →
          (m.bannedAt ≠ none ↔ m.isBanned = true)) →
       ∀ m ∈ (remove_whitelist_user db now uid ch).memberships, memKey uid ch m = true →
       m.isWhitelisted = is_whitelisted (remove_whitelist_user db now uid ch) uid ch
       ∧ (m.bannedAt ≠ none ↔ m.isBanned = true)) := by
  refine ⟨?_, ?_, ?_⟩
  · intro m hm hk
    rw [is_whitelisted_set_user_banned]
    rw [set_user_banned_memberships] at hm
    split at hm
    · rcases List.mem_map.mp hm with ⟨m0, hm0, rfl⟩
      by_cases hk0 : memKey uid ch m0 = true
      · rw [if_pos hk0]
        refine ⟨rfl, ?_⟩
        cases b <;> simp
      · rw [if_neg hk0] at hk
        exact absurd hk hk0
    · next hany =>
      rcases List.mem_append.mp hm with hm' | hm'
      · have hfalse : db.memberships.any (memKey uid ch) = false := by
          exact Bool.not_eq_true _ ▸ hany
        have h0 := List.any_eq_false.mp hfalse m hm'
        exact absurd hk (by simpa using h0)
      · have : m = ⟨uid, ch, b, is_whitelisted db uid ch, if b then some now else none, now⟩ := by
          simpa using hm'
        subst this
        refine ⟨rfl, ?_⟩
        cases b <;> simp
  · intro m hm hk
    rw [is_whitelisted_add_self]
    rw [add_whitelist_user_memberships] at hm
    split at hm
    · rcases List.mem_map.mp hm with ⟨m0, hm0, rfl⟩
      by_cases hk0 : memKey uid ch m0 = true
      · rw [if_pos hk0]
        exact ⟨rfl, by simp⟩
      · rw [if_neg hk0] at hk
        exact absurd hk hk0
    · next hany =>
      rcases List.mem_append.mp hm with hm' | hm'
      · have hfalse : db.memberships.any (memKey uid ch) = false := by
          exact Bool.not_eq_true _ ▸ hany
        have h0 := List.any_eq_false.mp hfalse m hm'
        exact absurd hk (by simpa using h0)
      · have : m = ⟨uid, ch, false, true, none, now⟩ := by simpa using hm'
        subst this
        exact ⟨rfl, by simp⟩
  · intro hpre m hm hk
    rw [is_whitelisted_remove_self]
    rw [remove_whitelist_user_memberships] at hm
    rcases List.mem_map.mp hm with ⟨m0, hm0, rfl⟩
    by_cases hk0 : memKey uid ch m0 = true
    · rw [if_pos hk0]
      exact ⟨rfl, hpre m0 hm0 hk0⟩
    · rw [if_neg hk0] at hk
      exact absurd hk hk0

/-- C10 witness state: a whitelisted pair with a stale ban record. -/
def dbC10 : DB :=
  { users := [11], subscriptions := [], payments := [], reminders := [],
    whitelist := [(11, "channel_1")],
    memberships := [⟨11, "channel_1", true, true, some 5, 0⟩] }

theorem membership_sync_invariant_witness :
    (⟨11, "channel_1", false, true, none, 9⟩ : ChannelMembership).isWhitelisted =
        is_whitelisted (set_user_banned dbC10 9 11 "channel_1" false) 11 "channel_1"
    ∧ ((⟨11, "channel_1", false, true, none, 9⟩ : ChannelMembership).bannedAt ≠ none ↔
        (⟨11, "channel_1", false, true, none, 9⟩ : ChannelMembership).isBanned = true) :=
  (membership_sync_invariant dbC10 9 11 "channel_1" false).1
    ⟨11, "channel_1", false, true, none, 9⟩ (by decide) (by decide)

/-! ## Fold machinery shared by the sweep claims -/

theorem foldl_invariant {σ α : Type} (step : σ → α → σ) (P : σ → Prop)
    (hP : ∀ s x, P s → P (step s x)) :
    ∀ (l : List α) (s : σ), P s → P (l.foldl step s) := by
  intro l
  induction l with
  | nil => exact fun s h => h
  | cons a t ih => exact fun s h => ih (step s a) (hP s a h)

theorem foldl_invariant_with {σ α : Type} (step : σ → α → σ) (P R : σ → Prop)
    (hR : ∀ s x, R s → R (step s x))
    (hP : ∀ s x, R s → P s → P (step s x)) :
    ∀ (l : List α) (s : σ), R s → P s → P (l.foldl step s) := by
  intro l
  induction l with
  | nil => exact fun s _ h => h
  | cons a t ih => exact fun s hR0 h => ih (step s a) (hR s a hR0) (hP s a hR0 h)

/-- Once the target element of the list is processed, the established property
survives to the end of the fold. -/
theorem foldl_mem_establish {σ α : Type} (step : σ → α → σ) (P R : σ → Prop) (a : α)
    (hR : ∀ s x, R s → R (step s x))
    (hP : ∀ s x, R s → P s → P (step s x))
    (hE : ∀ s, R s → P (step s a)) :
    ∀ (l : List α) (s : σ), R s → a ∈ l → P (l.foldl step s) := by
  intro l
  induction l with
  | nil => intro s _ ha; exact absurd ha (List.not_mem_nil a)
  | cons b t ih =>
    intro s hRs ha
    rcases List.mem_cons.mp ha with rfl | ha'
    · exact foldl_invariant_with step P R hR hP t (step s a) (hR s a hRs) (hE s hRs)
    · exact ih (step s b) (hR s b hRs) ha'

/-! ## Membership-flag reading lemmas -/

theorem find?_map_key {α : Type} (l : List α) (p : α → Bool) (f : α → α)
    (hf : ∀ x, p (f x) = p x) :
    (l.map f).find? p = (l.find? p).map f := by
  rw [List.find?_map, show (p ∘ f) = p from funext hf]

/-- The membership upsert's row update keeps the key fields. -/
theorem memKey_set_update (uid : Nat) (ch : String) (b : Bool) (wl : Bool) (t : Option Int)
    (n : Int) (uid' : Nat) (ch' : String) (m : ChannelMembership) :
    memKey uid' ch' (if memKey uid ch m then
      { m with isBanned := b, isWhitelisted := wl, bannedAt := t, lastVerified := n }
    else m) = memKey uid' ch' m := by
  split <;> rfl

theorem is_user_banned_set_self (db : DB) (now : Int) (uid : Nat) (ch : String) (b : Bool) :
    is_user_banned (set_user_banned db now uid ch b) uid ch = b := by
  unfold is_user_banned
  rw [set_user_banned_memberships]
  by_cases hany : db.memberships.any (memKey uid ch) = true
  · rw [if_pos hany,
      find?_map_key _ _ _ (memKey_set_update uid ch b (is_whitelisted db uid ch)
        (if b then some now else none) now uid ch)]
    cases hf : db.memberships.find? (memKey uid ch) with
    | none =>
      exfalso
      rcases List.any_eq_true.mp hany with ⟨x, hx, hpx⟩
      exact (List.find?_eq_none.mp hf x hx) hpx
    | some m =>
      have hm : memKey uid ch m = true := by
        have h2 := List.find?_some hf
        simpa using h2
      simp [hm]
  · have hnone : db.memberships.find? (memKey uid ch) = none := by
      rw [List.find?_eq_none]
      intro x hx
      have hfalse : db.memberships.any (memKey uid ch) = false := Bool.not_eq_true _ ▸ hany
      simpa using List.any_eq_false.mp hfalse x hx
    have hrowT : memKey uid ch (⟨uid, ch, b, is_whitelisted db uid ch,
        if b then some now else none, now⟩ : ChannelMembership) = true := by
      simp [memKey]
    rw [if_neg hany, List.find?_append, hnone, Option.none_or,
      List.find?_cons_of_pos _ hrowT]

theorem is_user_banned_set_other (db : DB) (now : Int) (uid : Nat) (ch : String) (b : Bool)
    (uid' : Nat) (ch' : String) (h : ¬(uid' = uid ∧ ch' = ch)) :
    is_user_banned (set_user_banned db now uid ch b) uid' ch' = is_user_banned db uid' ch' := by
  unfold is_user_banned
  rw [set_user_banned_memberships]
  have hrow : memKey uid' ch' (⟨uid, ch, b, is_whitelisted db uid ch,
      if b then some now else none, now⟩ : ChannelMembership) = false := by
    rw [Bool.eq_false_iff]
    intro hc
    have e : uid = uid' ∧ ch = ch' := by simpa [memKey] using hc
    exact h ⟨e.1.symm, e.2.symm⟩
  by_cases hany : db.memberships.any (memKey uid ch) = true
  · rw [if_pos hany,
      find?_map_key _ _ _ (memKey_set_update uid ch b (is_whitelisted db uid ch)
        (if b then some now else none) now uid' ch')]
    cases hf : db.memberships.find? (memKey uid' ch') with
    | none => rfl
    | some m =>
      have hm' : memKey uid' ch' m = true := by
        have h2 := List.find?_some hf
        simpa using h2
      have hk : memKey uid ch m = false := by
        rw [Bool.eq_false_iff]
        intro hc
        have e1 : m.telegramId = uid ∧ m.channelName = ch := by simpa [memKey] using hc
        have e2 : m.telegramId = uid' ∧ m.channelName = ch' := by simpa [memKey] using hm'
        exact h ⟨e2.1 ▸ e1.1, e2.2 ▸ e1.2⟩
      simp [hk]
  · rw [if_neg hany, List.find?_append,
      List.find?_cons_of_neg _ (by rw [hrow]; exact Bool.false_ne_true),
      List.find?_nil, Option.or_none]

/-! ## Sweep-step lemmas (`processExpiredRow`) -/

/-- Every stored subscription row of the pair is inactive. -/
def allInactive (dbv : DB) (uid : Nat) (ch : String) : Prop :=
  ∀ s ∈ dbv.subscriptions, subKey uid ch s = true → s.isActive = false

theorem allInactive_of_eq (db1 db2 : DB) (h : db2.subscriptions = db1.subscriptions)
    (uid : Nat) (ch : String) (ha : allInactive db1 uid ch) : allInactive db2 uid ch := by
  intro s hs hk
  exact ha s (h ▸ hs) hk

theorem deactivate_allInactive_self (db : DB) (uid : Nat) (ch : String) :
    allInactive (deactivate_subscription db uid ch) uid ch := by
  intro s hs hk
  unfold deactivate_subscription at hs
  rcases List.mem_map.mp hs with ⟨s0, hs0, rfl⟩
  by_cases h0 : subKey uid ch s0 = true
  · rw [if_pos h0]
  · rw [if_neg h0] at hk
    exact absurd hk h0

theorem deactivate_preserves_allInactive (db : DB) (uid : Nat) (ch : String)
    (uk : Nat) (ck : String) (h : allInactive db uk ck) :
    allInactive (deactivate_subscription db uid ch) uk ck := by
  intro s hs hk
  unfold deactivate_subscription at hs
  rcases List.mem_map.mp hs with ⟨s0, hs0, rfl⟩
  by_cases h0 : subKey uid ch s0 = true
  · rw [if_pos h0]
  · rw [if_neg h0] at hk ⊢
    exact h s0 hs0 hk

theorem set_user_banned_allInactive (db : DB) (now : Int) (uid : Nat) (ch : String) (b : Bool)
    (uk : Nat) (ck : String) (h : allInactive db uk ck) :
    allInactive (set_user_banned db now uid ch b) uk ck :=
  allInactive_of_eq db _ (set_user_banned_subscriptions db now uid ch b) uk ck h

theorem is_whitelisted_deactivate (db : DB) (uid : Nat) (ch : String) (u : Nat) (c : String) :
    is_whitelisted (deactivate_subscription db uid ch) u c = is_whitelisted db u c := rfl

theorem is_user_banned_deactivate (db : DB) (uid : Nat) (ch : String) (u : Nat) (c : String) :
    is_user_banned (deactivate_subscription db uid ch) u c = is_user_banned db u c := rfl

theorem processExpiredRow_whitelist (cfg : Config) (env : Env) (now : Int)
    (acc : DB × List Effect) (r : Subscription) :
    (processExpiredRow cfg env now acc r).1.whitelist = acc.1.whitelist := by
  unfold processExpiredRow
  dsimp only
  repeat' split
  all_goals simp [set_user_banned_whitelist, deactivate_subscription_whitelist]

theorem processExpiredRow_preserves_allInactive (cfg : Config) (env : Env) (now : Int)
    (acc : DB × List Effect) (r : Subscription) (uk : Nat) (ck : String)
    (h : allInactive acc.1 uk ck) :
    allInactive (processExpiredRow cfg env now acc r).1 uk ck := by
  unfold processExpiredRow
  dsimp only
  repeat' split
  all_goals
    first
      | exact h
      | exact set_user_banned_allInactive _ _ _ _ _ _ _
          (deactivate_preserves_allInactive _ _ _ _ _ h)

theorem processExpiredRow_preserves_banned (cfg : Config) (env : Env) (now : Int)
    (acc : DB × List Effect) (r : Subscription) (uid : Nat) (ch : String)
    (hwl : is_whitelisted acc.1 uid ch = false)
    (h : is_user_banned acc.1 uid ch = true) :
    is_user_banned (processExpiredRow cfg env now acc r).1 uid ch = true := by
  unfold processExpiredRow
  dsimp only
  by_cases hskip : now < r.endDate
  · rw [if_pos hskip]
    exact h
  · rw [if_neg hskip]
    by_cases hw : is_whitelisted (deactivate_subscription acc.1 r.telegramId r.channelName)
        r.telegramId r.channelName = true
    · rw [if_pos hw]
      dsimp only
      by_cases hkey : uid = r.telegramId ∧ ch = r.channelName
      · exfalso
        rw [is_whitelisted_deactivate] at hw
        rw [hkey.1, hkey.2] at hwl
        rw [hwl] at hw
        exact Bool.false_ne_true hw
      · rw [is_user_banned_set_other _ _ _ _ _ _ _ hkey, is_user_banned_deactivate]
        exact h
    · rw [if_neg hw]
      split
      all_goals
        by_cases hkey : uid = r.telegramId ∧ ch = r.channelName
      all_goals
        first
          | (rw [hkey.1, hkey.2, is_user_banned_set_self])
          | (rw [is_user_banned_set_other _ _ _ _ _ _ _ hkey, is_user_banned_deactivate]
             exact h)

theorem processExpiredRow_establishes_inactive (cfg : Config) (env : Env) (now : Int)
    (acc : DB × List Effect) (r : Subscription) (hexp : r.endDate < now) :
    allInactive (processExpiredRow cfg env now acc r).1 r.telegramId r.channelName := by
  unfold processExpiredRow
  dsimp only
  rw [if_neg (not_lt.mpr (le_of_lt hexp))]
  repeat' split
  all_goals
    exact set_user_banned_allInactive _ _ _ _ _ _ _ (deactivate_allInactive_self _ _ _)

theorem processExpiredRow_establishes_banned (cfg : Config) (env : Env) (now : Int)
    (acc : DB × List Effect) (r : Subscription) (hexp : r.endDate < now)
    (hwl : is_whitelisted acc.1 r.telegramId r.channelName = false) :
    is_user_banned (processExpiredRow cfg env now acc r).1 r.telegramId r.channelName = true := by
  unfold processExpiredRow
  dsimp only
  rw [if_neg (not_lt.mpr (le_of_lt hexp))]
  rw [if_neg (by rw [is_whitelisted_deactivate, hwl]; exact Bool.false_ne_true)]
  split
  all_goals exact is_user_banned_set_self _ _ _ _ _

theorem processExpiredRow_rows_subset (cfg : Config) (env : Env) (now : Int)
    (acc : DB × List Effect) (r : Subscription) (db0 : DB)
    (h : ∀ s ∈ acc.1.subscriptions, s ∈ db0.subscriptions ∨ s.isActive = false) :
    ∀ s ∈ (processExpiredRow cfg env now acc r).1.subscriptions,
      s ∈ db0.subscriptions ∨ s.isActive = false := by
  unfold processExpiredRow
  dsimp only
  repeat' split
  all_goals
    first
      | exact h
      | { intro s hs
          rw [set_user_banned_subscriptions] at hs
          unfold deactivate_subscription at hs
          rcases List.mem_map.mp hs with ⟨s0, hs0, rfl⟩
          by_cases h0 : subKey r.telegramId r.channelName s0 = true
          · right
            rw [if_pos h0]
          · rw [if_neg h0]
            exact h s0 hs0 }

/-- After one sweep run (with a fixed clock) no active-and-expired row
remains, so a second run with the same clock selects nothing and changes
nothing. -/
theorem sweep_second_run_noop (cfg : Config) (env env2 : Env) (now : Int) (db : DB) :
    check_expired_subscriptions cfg env2 now (check_expired_subscriptions cfg env now db).1 =
      ((check_expired_subscriptions cfg env now db).1, []) := by
  set db' := (check_expired_subscriptions cfg env now db).1 with hdb'
  have hsubset : ∀ s ∈ db'.subscriptions, s ∈ db.subscriptions ∨ s.isActive = false := by
    rw [hdb']
    unfold check_expired_subscriptions
    exact foldl_invariant _
      (fun acc : DB × List Effect =>
        ∀ s ∈ acc.1.subscriptions, s ∈ db.subscriptions ∨ s.isActive = false)
      (fun acc r h => processExpiredRow_rows_subset cfg env now acc r db h)
      (get_expired_subscriptions db now) (db, []) (fun s hs => Or.inl hs)
  have hnone : ∀ s ∈ db'.subscriptions, ¬(s.isActive = true ∧ s.endDate < now) := by
    rintro s hs ⟨hact, hexp⟩
    rcases hsubset s hs with hmem | hinact
    · have hsel : s ∈ get_expired_subscriptions db now := by
        unfold get_expired_subscriptions
        rw [List.mem_insertionSort, List.mem_filter]
        exact ⟨hmem, by simp [hact, hexp]⟩
      have hAI : allInactive db' s.telegramId s.channelName := by
        rw [hdb']
        unfold check_expired_subscriptions
        exact foldl_mem_establish _
          (fun acc : DB × List Effect => allInactive acc.1 s.telegramId s.channelName)
          (fun _ => True) s (fun _ _ _ => trivial)
          (fun acc r _ h => processExpiredRow_preserves_allInactive cfg env now acc r _ _ h)
          (fun acc _ => processExpiredRow_establishes_inactive cfg env now acc s hexp)
          (get_expired_subscriptions db now) (db, []) trivial hsel
      have hfalse := hAI s hs (by simp [subKey])
      rw [hact] at hfalse
      exact absurd hfalse (by simp)
    · rw [hact] at hinact
      exact absurd hinact (by simp)
  have hsel2 : get_expired_subscriptions db' now = [] := by
    unfold get_expired_subscriptions
    have hfil : db'.subscriptions.filter
        (fun s => s.isActive && decide (s.endDate < now)) = [] := by
      rw [List.filter_eq_nil_iff]
      intro s hs hp
      have h2 : s.isActive = true ∧ s.endDate < now := by simpa using hp
      exact hnone s hs h2
    rw [hfil]
    rfl
  unfold check_expired_subscriptions
  rw [hsel2]
  rfl

/-- Claim C3: one periodic sweep run, on a Subscription row that is active,
expired (end date strictly in the past) and not whitelisted, flips every
stored row of that pair to `active = false` and records `is_banned = true` —
the environment is arbitrary, so this holds in particular when the external
remove (`ban_chat_member`) call raises, and failures on any rows never abort
the fold over the remaining rows — and running the sweep again on the
resulting store (same clock) is a complete no-op. -/
theorem sweep_expired_row_deactivates_and_bans
    (cfg : Config) (env : Env) (now : Int) (db : DB) (r : Subscription)
    (hr : r ∈ db.subscriptions) (hact : r.isActive = true) (hexp : r.endDate < now)
    (hwl : is_whitelisted db r.telegramId r.channelName = false) :
    allInactive (check_expired_subscriptions cfg env now db).1 r.telegramId r.channelName
    ∧ is_user_banned (check_expired_subscriptions cfg env now db).1
        r.telegramId r.channelName = true
    ∧ check_expired_subscriptions cfg env now (check_expired_subscriptions cfg env now db).1 =
        ((check_expired_subscriptions cfg env now db).1, []) := by
  have hsel : r ∈ get_expired_subscriptions db now := by
    unfold get_expired_subscriptions
    rw [List.mem_insertionSort, List.mem_filter]
    exact ⟨hr, by simp [hact, hexp]⟩
  refine ⟨?_, ?_, sweep_second_run_noop cfg env env now db⟩
  · unfold check_expired_subscriptions
    exact foldl_mem_establish _
      (fun acc : DB × List Effect => allInactive acc.1 r.telegramId r.channelName)
      (fun _ => True) r (fun _ _ _ => trivial)
      (fun acc x _ h => processExpiredRow_preserves_allInactive cfg env now acc x _ _ h)
      (fun acc _ => processExpiredRow_establishes_inactive cfg env now acc r hexp)
      (get_expired_subscriptions db now) (db, []) trivial hsel
  · unfold check_expired_subscriptions
    exact foldl_mem_establish _
      (fun acc : DB × List Effect =>
        is_user_banned acc.1 r.telegramId r.channelName = true)
      (fun acc : DB × List Effect => acc.1.whitelist = db.whitelist) r
      (fun acc x hR => (processExpiredRow_whitelist cfg env now acc x).trans hR)
      (fun acc x hR h => processExpiredRow_preserves_banned cfg env now acc x _ _
        (by unfold is_whitelisted; rw [hR]; exact hwl) h)
      (fun acc hR => processExpiredRow_establishes_banned cfg env now acc r hexp
        (by unfold is_whitelisted; rw [hR]; exact hwl))
      (get_expired_subscriptions db now) (db, []) rfl hsel

/-- Environment in which every `ban_chat_member` call raises. -/
def envBanFail : Env :=
  { env0 with failBan := fun _ _ => true }

/-- C3 witness state: one expired, active, non-whitelisted subscription. -/
def dbC3 : DB :=
  { users := [13], subscriptions := [⟨13, "channel_1", true, "paid", 0, 50⟩],
    payments := [], reminders := [], whitelist := [], memberships := [] }

theorem sweep_expired_row_deactivates_and_bans_witness :
    allInactive (check_expired_subscriptions cfg0 envBanFail 100 dbC3).1 13 "channel_1"
    ∧ is_user_banned (check_expired_subscriptions cfg0 envBanFail 100 dbC3).1 13 "channel_1" = true
    ∧ check_expired_subscriptions cfg0 envBanFail 100
        (check_expired_subscriptions cfg0 envBanFail 100 dbC3).1 =
        ((check_expired_subscriptions cfg0 envBanFail 100 dbC3).1, []) :=
  sweep_expired_row_deactivates_and_bans cfg0 envBanFail 100 dbC3
    ⟨13, "channel_1", true, "paid", 0, 50⟩ (by decide) rfl (by decide) rfl

/-! ## Claim C4: whitelist always overrides expiry -/

theorem foldl_invariant_elements {σ α : Type} (step : σ → α → σ) (P R : σ → Prop)
    (Q : α → Prop)
    (hR : ∀ s x, R s → R (step s x))
    (hP : ∀ s x, R s → Q x → P s → P (step s x)) :
    ∀ (l : List α) (s : σ), (∀ x ∈ l, Q x) → R s → P s → P (l.foldl step s) := by
  intro l
  induction l with
  | nil => exact fun s _ _ h => h
  | cons a t ih =>
    intro s hQ hRs h
    exact ih (step s a) (fun x hx => hQ x (List.mem_cons_of_mem a hx)) (hR s a hRs)
      (hP s a hRs (hQ a (List.mem_cons_self a t)) h)

theorem processExpiredRow_preserves_unbanned (cfg : Config) (env : Env) (now : Int)
    (acc : DB × List Effect) (r : Subscription) (uid : Nat) (ch : String)
    (hwl : is_whitelisted acc.1 uid ch = true)
    (h : is_user_banned acc.1 uid ch = false) :
    is_user_banned (processExpiredRow cfg env now acc r).1 uid ch = false := by
  unfold processExpiredRow
  dsimp only
  by_cases hskip : now < r.endDate
  · rw [if_pos hskip]
    exact h
  · rw [if_neg hskip]
    by_cases hw : is_whitelisted (deactivate_subscription acc.1 r.telegramId r.channelName)
        r.telegramId r.channelName = true
    · rw [if_pos hw]
      dsimp only
      by_cases hkey : uid = r.telegramId ∧ ch = r.channelName
      · rw [hkey.1, hkey.2, is_user_banned_set_self]
      · rw [is_user_banned_set_other _ _ _ _ _ _ _ hkey, is_user_banned_deactivate]
        exact h
    · rw [if_neg hw]
      have hkey : ¬(uid = r.telegramId ∧ ch = r.channelName) := by
        intro hc
        rw [is_whitelisted_deactivate] at hw
        rw [hc.1, hc.2] at hwl
        exact hw hwl
      split
      all_goals
        rw [is_user_banned_set_other _ _ _ _ _ _ _ hkey, is_user_banned_deactivate]
      all_goals exact h

theorem processExpiredRow_establishes_unbanned (cfg : Config) (env : Env) (now : Int)
    (acc : DB × List Effect) (r : Subscription) (hexp : r.endDate < now)
    (hwl : is_whitelisted acc.1 r.telegramId r.channelName = true) :
    is_user_banned (processExpiredRow cfg env now acc r).1 r.telegramId r.channelName = false := by
  unfold processExpiredRow
  dsimp only
  rw [if_neg (not_lt.mpr (le_of_lt hexp))]
  rw [if_pos (by rw [is_whitelisted_deactivate]; exact hwl)]
  exact is_user_banned_set_self _ _ _ _ _

/-- Two distinct channel names of the closed set resolve to distinct chat
ids when the configured ids differ. -/
theorem chanId_ne (cfg : Config) (hNe : cfg.CHANNEL_1_ID ≠ cfg.CHANNEL_2_ID)
    (c1 c2 : String)
    (h1 : c1 = "channel_1" ∨ c1 = "channel_2")
    (h2 : c2 = "channel_1" ∨ c2 = "channel_2")
    (hne : c1 ≠ c2) : chanId cfg c1 ≠ chanId cfg c2 := by
  rcases h1 with h1 | h1 <;> rcases h2 with h2 | h2 <;>
    rw [h1] at hne ⊢ <;> rw [h2] at hne ⊢
  · exact absurd rfl hne
  · simpa [chanId] using hNe
  · simpa [chanId] using (Ne.symm hNe)
  · exact absurd rfl hne

theorem processExpiredRow_trace_ban_free (cfg : Config) (env : Env) (now : Int)
    (acc : DB × List Effect) (r : Subscription) (uid : Nat) (ch : String)
    (hNe : cfg.CHANNEL_1_ID ≠ cfg.CHANNEL_2_ID)
    (hchin : ch = "channel_1" ∨ ch = "channel_2")
    (hrch : r.channelName = "channel_1" ∨ r.channelName = "channel_2")
    (hwlp : is_whitelisted acc.1 uid ch = true)
    (hnotin : Effect.banMember uid (chanId cfg ch) ∉ acc.2) :
    Effect.banMember uid (chanId cfg ch) ∉ (processExpiredRow cfg env now acc r).2 := by
  unfold processExpiredRow
  dsimp only
  by_cases hskip : now < r.endDate
  · rw [if_pos hskip]
    exact hnotin
  · rw [if_neg hskip]
    by_cases hw : is_whitelisted (deactivate_subscription acc.1 r.telegramId r.channelName)
        r.telegramId r.channelName = true
    · rw [if_pos hw]
      exact hnotin
    · rw [if_neg hw]
      split
      · exact hnotin
      · intro hmem
        rcases List.mem_append.mp hmem with hmem | hmem
        · rcases List.mem_append.mp hmem with hmem | hmem
          · exact hnotin hmem
          · have heq := List.mem_singleton.mp hmem
            have huid : uid = r.telegramId := by
              injection heq with h1 h2
            have hchid : chanId cfg ch = chanId cfg r.channelName := by
              injection heq with h1 h2
            by_cases hcc : ch = r.channelName
            · rw [is_whitelisted_deactivate] at hw
              rw [huid, hcc] at hwlp
              exact hw hwlp
            · exact chanId_ne cfg hNe ch r.channelName hchin hrch hcc hchid
        · split at hmem
          · exact absurd hmem (List.not_mem_nil _)
          · exact absurd (List.mem_singleton.mp hmem) (by intro hc; cases hc)

theorem processVerifRow_preserves_unbanned (cfg : Config) (env : Env) (now : Int)
    (acc : DB × List Effect) (row : VerifRow) (uid : Nat) (ch : String)
    (hQ : row.telegramId = uid → row.channelName = ch → row.isWhitelisted = true)
    (h : is_user_banned acc.1 uid ch = false) :
    is_user_banned (processVerifRow cfg env now acc row).1 uid ch = false := by
  unfold processVerifRow
  dsimp only
  by_cases hkey : uid = row.telegramId ∧ ch = row.channelName
  · have hwl : row.isWhitelisted = true := hQ hkey.1.symm hkey.2.symm
    rw [show (row.isActive && decide (now < row.endDate) || row.isWhitelisted) = true by
      rw [hwl]; simp]
    rw [if_pos rfl]
    split
    · rw [hkey.1, hkey.2, is_user_banned_set_self]
    · exact h
  · repeat' split
    all_goals
      first
        | exact h
        | (rw [is_user_banned_set_other _ _ _ _ _ _ _ hkey]; exact h)

/-- Claim C4: a whitelisted (user, channel) pair is never transitioned to
`is_banned = true` by either sweep: the periodic sweep never flips the flag
to true and never issues the external remove call for that pair (given the
two configured chat ids differ and subscription channels come from the closed
set), it explicitly records `is_banned = false` without calling remove when
the pair's own expired row is processed, and the startup verification sweep
never flips the flag to true either. -/
theorem whitelisted_never_banned_by_sweeps
    (cfg : Config) (env : Env) (now : Int) (db : DB) (uid : Nat) (ch : String)
    (hwl : is_whitelisted db uid ch = true)
    (hNe : cfg.CHANNEL_1_ID ≠ cfg.CHANNEL_2_ID)
    (hchin : ch = "channel_1" ∨ ch = "channel_2")
    (hwf : ∀ s ∈ db.subscriptions,
      s.channelName = "channel_1" ∨ s.channelName = "channel_2") :
    (is_user_banned db uid ch = false →
      is_user_banned (check_expired_subscriptions cfg env now db).1 uid ch = false)
    ∧ Effect.banMember uid (chanId cfg ch) ∉ (check_expired_subscriptions cfg env now db).2
    ∧ (∀ r ∈ db.subscriptions, r.telegramId = uid → r.channelName = ch →
        r.isActive = true → r.endDate < now →
        is_user_banned (check_expired_subscriptions cfg env now db).1 uid ch = false)
    ∧ (is_user_banned db uid ch = false →
        is_user_banned (verify_all_subscriptions_on_startup cfg env now db).1 uid ch = false) := by
  have hselQ : ∀ x ∈ get_expired_subscriptions db now,
      x.channelName = "channel_1" ∨ x.channelName = "channel_2" := by
    intro x hx
    have hx2 : x ∈ db.subscriptions := by
      unfold get_expired_subscriptions at hx
      rw [List.mem_insertionSort, List.mem_filter] at hx
      exact hx.1
    exact hwf x hx2
  refine ⟨?_, ?_, ?_, ?_⟩
  · intro h0
    unfold check_expired_subscriptions
    exact foldl_invariant_with _
      (fun acc : DB × List Effect => is_user_banned acc.1 uid ch = false)
      (fun acc : DB × List Effect => acc.1.whitelist = db.whitelist)
      (fun acc x hR => (processExpiredRow_whitelist cfg env now acc x).trans hR)
      (fun acc x hR h => processExpiredRow_preserves_unbanned cfg env now acc x uid ch
        (by unfold is_whitelisted; rw [hR]; exact hwl) h)
      (get_expired_subscriptions db now) (db, []) rfl h0
  · unfold check_expired_subscriptions
    exact foldl_invariant_elements _
      (fun acc : DB × List Effect => Effect.banMember uid (chanId cfg ch) ∉ acc.2)
      (fun acc : DB × List Effect => acc.1.whitelist = db.whitelist)
      (fun x : Subscription => x.channelName = "channel_1" ∨ x.channelName = "channel_2")
      (fun acc x hR => (processExpiredRow_whitelist cfg env now acc x).trans hR)
      (fun acc x hR hQ h => processExpiredRow_trace_ban_free cfg env now acc x uid ch
        hNe hchin hQ (by unfold is_whitelisted; rw [hR]; exact hwl) h)
      (get_expired_subscriptions db now) (db, []) hselQ rfl (List.not_mem_nil _)
  · intro r hr huid hch hact hexp
    have hsel : r ∈ get_expired_subscriptions db now := by
      unfold get_expired_subscriptions
      rw [List.mem_insertionSort, List.mem_filter]
      exact ⟨hr, by simp [hact, hexp]⟩
    unfold check_expired_subscriptions
    have hres := foldl_mem_establish _
      (fun acc : DB × List Effect =>
        is_user_banned acc.1 r.telegramId r.channelName = false)
      (fun acc : DB × List Effect => acc.1.whitelist = db.whitelist) r
      (fun acc x hR => (processExpiredRow_whitelist cfg env now acc x).trans hR)
      (fun acc x hR h => processExpiredRow_preserves_unbanned cfg env now acc x _ _
        (by unfold is_whitelisted; rw [hR, huid, hch]; exact hwl) h)
      (fun acc hR => processExpiredRow_establishes_unbanned cfg env now acc r hexp
        (by unfold is_whitelisted; rw [hR, huid, hch]; exact hwl))
      (get_expired_subscriptions db now) (db, []) rfl hsel
    rw [huid, hch] at hres
    exact hres
  · intro h0
    unfold verify_all_subscriptions_on_startup
    refine foldl_invariant_elements _
      (fun acc : DB × List Effect => is_user_banned acc.1 uid ch = false)
      (fun _ => True)
      (fun row : VerifRow =>
        row.telegramId = uid → row.channelName = ch → row.isWhitelisted = true)
      (fun _ _ _ => trivial)
      (fun acc row _ hQ h => processVerifRow_preserves_unbanned cfg env now acc row uid ch hQ h)
      (get_all_users_for_verification db) (db, []) ?_ trivial h0
    intro row hrow h1 h2
    unfold get_all_users_for_verification at hrow
    rw [List.mem_insertionSort] at hrow
    have hrow2 := List.mem_dedup.mp hrow
    rcases List.mem_map.mp hrow2 with ⟨s, hs, rfl⟩
    dsimp only at h1 h2 ⊢
    rw [h1, h2]
    exact hwl

/-- C4 witness state: a whitelisted pair whose subscription has expired. -/
def dbC4 : DB :=
  { users := [15], subscriptions := [⟨15, "channel_1", true, "paid", 0, 50⟩],
    payments := [], reminders := [], whitelist := [(15, "channel_1")],
    memberships := [⟨15, "channel_1", false, true, none, 0⟩] }

theorem whitelisted_never_banned_by_sweeps_witness :
    is_user_banned (check_expired_subscriptions cfg0 env0 100 dbC4).1 15 "channel_1" = false :=
  (whitelisted_never_banned_by_sweeps cfg0 env0 100 dbC4 15 "channel_1" rfl (by decide)
    (Or.inl rfl) (by decide)).2.2.1 ⟨15, "channel_1", true, "paid", 0, 50⟩
    (by decide) rfl rfl rfl (by decide)

/-! ## Claim C9: the hourly reminder sweep -/

/-- C9 counterexample state: a due, unsent reminder whose subscription has
been deactivated in the meantime. -/
def dbC9 : DB :=
  { users := [14], subscriptions := [⟨14, "channel_1", false, "gift", 0, 40⟩],
    payments := [], reminders := [⟨14, "channel_1", false, 30⟩],
    whitelist := [], memberships := [] }

/-- Claim C9 counterexample: this reminder is pending (`sent = false`,
`fire_at <= now`) but its subscription is deactivated, and one run of the
reminder sweep sends nothing and leaves the whole store unchanged — the
reminder is NOT sent once and NOT marked, contradicting the claim that a
reminder whose subscription was cancelled in the meantime is still sent. -/
theorem reminder_skipped_without_active_sub_cex :
    (⟨14, "channel_1", false, 30⟩ : Reminder) ∈ dbC9.reminders
    ∧ (⟨14, "channel_1", false, 30⟩ : Reminder).reminderSent = false
    ∧ (⟨14, "channel_1", false, 30⟩ : Reminder).reminderDate ≤ 100
    ∧ get_active_subscription dbC9 14 "channel_1" = none
    ∧ check_reminders env0 100 dbC9 = (dbC9, []) := by decide

theorem processReminder_subscriptions (env : Env) (acc : DB × List Effect) (rem : Reminder) :
    (processReminder env acc rem).1.subscriptions = acc.1.subscriptions := by
  unfold processReminder
  dsimp only
  repeat' split
  all_goals simp [mark_reminder_sent_subscriptions]

theorem get_active_subscription_of_subs_eq (db1 db2 : DB)
    (h : db1.subscriptions = db2.subscriptions) (uid : Nat) (ch : String) :
    get_active_subscription db1 uid ch = get_active_subscription db2 uid ch := by
  unfold get_active_subscription
  rw [h]

theorem mark_reminder_sent_all (db : DB) (uid : Nat) (ch : String) :
    ∀ rm ∈ (mark_reminder_sent db uid ch).reminders, remKey uid ch rm = true →
      rm.reminderSent = true := by
  intro rm hm hk
  unfold mark_reminder_sent at hm
  rcases List.mem_map.mp hm with ⟨r0, hr0, rfl⟩
  by_cases h0 : remKey uid ch r0 = true
  · rw [if_pos h0]
  · rw [if_neg h0] at hk
    exact absurd hk h0

theorem mark_reminder_sent_preserves_all (db : DB) (uid : Nat) (ch : String)
    (uk : Nat) (ck : String)
    (h : ∀ rm ∈ db.reminders, remKey uk ck rm = true → rm.reminderSent = true) :
    ∀ rm ∈ (mark_reminder_sent db uid ch).reminders, remKey uk ck rm = true →
      rm.reminderSent = true := by
  intro rm hm hk
  unfold mark_reminder_sent at hm
  rcases List.mem_map.mp hm with ⟨r0, hr0, rfl⟩
  by_cases h0 : remKey uid ch r0 = true
  · rw [if_pos h0]
  · rw [if_neg h0] at hk ⊢
    exact h r0 hr0 hk

theorem processReminder_preserves_sent (env : Env) (acc : DB × List Effect) (rem : Reminder)
    (uk : Nat) (ck : String)
    (h : ∀ rm ∈ acc.1.reminders, remKey uk ck rm = true → rm.reminderSent = true) :
    ∀ rm ∈ (processReminder env acc rem).1.reminders, remKey uk ck rm = true →
      rm.reminderSent = true := by
  unfold processReminder
  dsimp only
  repeat' split
  all_goals
    first
      | exact h
      | exact mark_reminder_sent_preserves_all _ _ _ _ _ h

theorem processReminder_trace_mono (env : Env) (acc : DB × List Effect) (rem : Reminder)
    (e : Effect) (h : e ∈ acc.2) : e ∈ (processReminder env acc rem).2 := by
  unfold processReminder
  dsimp only
  repeat' split
  all_goals
    first
      | exact h
      | exact List.mem_append.mpr (Or.inl h)

theorem processReminder_establishes_sent (env : Env) (acc : DB × List Effect)
    (rem : Reminder) (db0 : DB)
    (hsubs : acc.1.subscriptions = db0.subscriptions)
    (hsub : (get_active_subscription db0 rem.telegramId rem.channelName).isSome = true)
    (hns : env.failSendReminder rem.telegramId = false) :
    (∀ rm ∈ (processReminder env acc rem).1.reminders,
        remKey rem.telegramId rem.channelName rm = true → rm.reminderSent = true)
    ∧ Effect.sendReminder rem.telegramId rem.channelName ∈ (processReminder env acc rem).2 := by
  unfold processReminder
  dsimp only
  have hga : get_active_subscription acc.1 rem.telegramId rem.channelName =
      get_active_subscription db0 rem.telegramId rem.channelName :=
    get_active_subscription_of_subs_eq _ _ hsubs _ _
  cases hf : get_active_subscription db0 rem.telegramId rem.channelName with
  | none =>
    rw [hf] at hsub
    simp at hsub
  | some s0 =>
    rw [hga, hf]
    dsimp only
    rw [if_neg (by simp [hns])]
    exact ⟨mark_reminder_sent_all _ _ _, by simp⟩

theorem processReminder_stable (env : Env) (acc : DB × List Effect) (rem : Reminder)
    (uid : Nat) (ch : String) (db0 : DB)
    (hsubs : acc.1.subscriptions = db0.subscriptions)
    (hcase : get_active_subscription db0 uid ch = none ∨ env.failSendReminder uid = true)
    (hfil : acc.1.reminders.filter (remKey uid ch) = db0.reminders.filter (remKey uid ch))
    (htr : Effect.sendReminder uid ch ∉ acc.2) :
    (processReminder env acc rem).1.reminders.filter (remKey uid ch) =
      db0.reminders.filter (remKey uid ch)
    ∧ Effect.sendReminder uid ch ∉ (processReminder env acc rem).2 := by
  unfold processReminder
  dsimp only
  cases hga : get_active_subscription acc.1 rem.telegramId rem.channelName with
  | none => exact ⟨hfil, htr⟩
  | some s0 =>
    dsimp only
    by_cases hfs : env.failSendReminder rem.telegramId = true
    · rw [if_pos hfs]
      exact ⟨hfil, htr⟩
    · rw [if_neg hfs]
      have hkey : ¬(rem.telegramId = uid ∧ rem.channelName = ch) := by
        intro hc
        rcases hcase with hnone | hfail
        · rw [get_active_subscription_of_subs_eq _ db0 hsubs, hc.1, hc.2, hnone] at hga
          cases hga
        · rw [hc.1, hfail] at hfs
          exact hfs rfl
      constructor
      · have hm : (mark_reminder_sent acc.1 rem.telegramId rem.channelName).reminders.filter
            (remKey uid ch) = acc.1.reminders.filter (remKey uid ch) := by
          unfold mark_reminder_sent
          dsimp only
          apply filter_map_eq_of
          · intro x
            split <;> rfl
          · intro x hx
            by_cases h0 : remKey rem.telegramId rem.channelName x = true
            · exfalso
              have e1 : x.telegramId = rem.telegramId ∧ x.channelName = rem.channelName := by
                simpa [remKey] using h0
              have e2 : x.telegramId = uid ∧ x.channelName = ch := by
                simpa [remKey] using hx
              exact hkey ⟨e1.1 ▸ e2.1, e1.2 ▸ e2.2⟩
            · rw [if_neg h0]
        rw [hm]
        exact hfil
      · intro hmem
        rcases List.mem_append.mp hmem with h1 | h1
        · exact htr h1
        · have h2 := List.mem_singleton.mp h1
          injection h2 with e1 e2
          exact hkey ⟨e1.symm, e2.symm⟩

/-- Claim C9 (amended): one run of the hourly reminder sweep, on a Reminder
with `sent = false` and `fire_at <= now`, sends the notification and sets
`sent = true` only when the pair still has an ACTIVE Subscription row; a
reminder whose subscription has been cancelled or deactivated in the meantime
is skipped entirely — it is neither sent nor marked, and its row is left
exactly as stored (it is not sent once, contrary to the original claim); and
when the delivery call raises, `sent` remains `false` so the reminder is
retried on the next tick. -/
theorem reminder_sweep_spec (env : Env) (now : Int) (db : DB) (rem : Reminder)
    (hmem : rem ∈ db.reminders) (hunsent : rem.reminderSent = false)
    (hdue : rem.reminderDate ≤ now) :
    ((get_active_subscription db rem.telegramId rem.channelName).isSome = true →
      env.failSendReminder rem.telegramId = false →
      (∀ rm ∈ (check_reminders env now db).1.reminders,
          remKey rem.telegramId rem.channelName rm = true → rm.reminderSent = true)
      ∧ Effect.sendReminder rem.telegramId rem.channelName ∈ (check_reminders env now db).2)
    ∧ (get_active_subscription db rem.telegramId rem.channelName = none →
      (check_reminders env now db).1.reminders.filter (remKey rem.telegramId rem.channelName) =
        db.reminders.filter (remKey rem.telegramId rem.channelName)
      ∧ Effect.sendReminder rem.telegramId rem.channelName ∉ (check_reminders env now db).2)
    ∧ (env.failSendReminder rem.telegramId = true →
      (check_reminders env now db).1.reminders.filter (remKey rem.telegramId rem.channelName) =
        db.reminders.filter (remKey rem.telegramId rem.channelName)) := by
  have hpend : rem ∈ get_pending_reminders db now := by
    unfold get_pending_reminders
    rw [List.mem_filter]
    exact ⟨hmem, by simp [hunsent, hdue]⟩
  refine ⟨?_, ?_, ?_⟩
  · intro hsub hns
    unfold check_reminders
    exact foldl_mem_establish _
      (fun acc : DB × List Effect =>
        (∀ rm ∈ acc.1.reminders, remKey rem.telegramId rem.channelName rm = true →
          rm.reminderSent = true)
        ∧ Effect.sendReminder rem.telegramId rem.channelName ∈ acc.2)
      (fun acc : DB × List Effect => acc.1.subscriptions = db.subscriptions) rem
      (fun acc x hR => (processReminder_subscriptions env acc x).trans hR)
      (fun acc x _ h => ⟨processReminder_preserves_sent env acc x _ _ h.1,
        processReminder_trace_mono env acc x _ h.2⟩)
      (fun acc hR => processReminder_establishes_sent env acc rem db hR hsub hns)
      (get_pending_reminders db now) (db, []) rfl hpend
  · intro hnone
    unfold check_reminders
    exact foldl_invariant_with _
      (fun acc : DB × List Effect =>
        acc.1.reminders.filter (remKey rem.telegramId rem.channelName) =
          db.reminders.filter (remKey rem.telegramId rem.channelName)
        ∧ Effect.sendReminder rem.telegramId rem.channelName ∉ acc.2)
      (fun acc : DB × List Effect => acc.1.subscriptions = db.subscriptions)
      (fun acc x hR => (processReminder_subscriptions env acc x).trans hR)
      (fun acc x hR h => processReminder_stable env acc x _ _ db hR (Or.inl hnone) h.1 h.2)
      (get_pending_reminders db now) (db, []) rfl ⟨rfl, List.not_mem_nil _⟩
  · intro hfail
    unfold check_reminders
    exact (foldl_invariant_with _
      (fun acc : DB × List Effect =>
        acc.1.reminders.filter (remKey rem.telegramId rem.channelName) =
          db.reminders.filter (remKey rem.telegramId rem.channelName)
        ∧ Effect.sendReminder rem.telegramId rem.channelName ∉ acc.2)
      (fun acc : DB × List Effect => acc.1.subscriptions = db.subscriptions)
      (fun acc x hR => (processReminder_subscriptions env acc x).trans hR)
      (fun acc x hR h => processReminder_stable env acc x _ _ db hR (Or.inr hfail) h.1 h.2)
      (get_pending_reminders db now) (db, []) rfl ⟨rfl, List.not_mem_nil _⟩).1

/-- C9 witness state: a due reminder whose subscription is still active. -/
def dbC9w : DB :=
  { users := [16], subscriptions := [⟨16, "channel_1", true, "gift", 0, 200⟩],
    payments := [], reminders := [⟨16, "channel_1", false, 90⟩],
    whitelist := [], memberships := [] }

theorem reminder_sweep_spec_witness :
    (∀ rm ∈ (check_reminders env0 100 dbC9w).1.reminders,
        remKey 16 "channel_1" rm = true → rm.reminderSent = true)
    ∧ Effect.sendReminder 16 "channel_1" ∈ (check_reminders env0 100 dbC9w).2 :=
  (reminder_sweep_spec env0 100 dbC9w ⟨16, "channel_1", false, 90⟩
    (by decide) rfl (by decide)).1 (by decide) rfl
